import Mathlib

/-!
Verification of the state-reconciliation logic of the Azure storage-blob
module (`src/lib/ansible/modules/cloud/azure/azure_rm_storageblob.py`).

The embedding models each method of `AzureRMStorageBlob` as a function over
an explicit module state `S` holding the remote store, the local filesystem,
the trace of remote API calls, the result accumulator and the fail flag
(`self.fail` raises, which we model by setting `failed`; state mutated before
the failure survives, matching the "actions already taken remain applied"
semantics).  Python dictionaries with a fixed key set (the container / blob
fact dictionaries) are modelled as structures of optional fields, where the
empty dictionary has every field `none`.
-/

namespace StorageBlob

/-- Metadata tag mappings (Python `dict` of string to string). -/
abbrev Tags := List (String × String)

/-- Dictionary lookup: value of key `k`, `none` when absent. -/
def tagLookup (m : Tags) (k : String) : Option String :=
  (m.find? (fun p => p.1 = k)).map (fun p => p.2)

/-- Extensional equality of tag dictionaries (Python `dict` equality:
insertion order is irrelevant, only the key-value mapping counts). -/
def dictBeq (a b : Tags) : Bool :=
  (a.all (fun p => tagLookup a p.1 = tagLookup b p.1))
    && (b.all (fun p => tagLookup a p.1 = tagLookup b p.1))

/-- Merge `declared` into `current`: declared values overwrite on key
collision, keys only in `current` are preserved. -/
def mergeTags (current declared : Tags) : Tags :=
  current.filter (fun p => (tagLookup declared p.1).isNone) ++ declared

/-- Modelled from the spec: `update_tags` is inherited from
`AzureRMModuleBase` in `module_utils/azure_rm_common.py`, which is not part
of `src/`.  Per the spec: given the current tags mapping and the declared
tags mapping plus a purge flag — if purge is false, merge declared into
current (declared values overwrite on key collision, keys only in current
are preserved); if purge is true, the result equals declared exactly.
Returns whether the merged result differs from the original, and the merged
result.  An absent (`none`) mapping is treated as the empty mapping. -/
def update_tags (current declared : Option Tags) (purge : Bool) : Bool × Tags :=
  let cur := current.getD []
  let dec := declared.getD []
  let merged := if purge then dec else mergeTags cur dec
  (!(dictBeq merged cur), merged)

/-- The six optional content-settings fields of a blob
(`ContentSettings` / the `content_settings` sub-dictionary of `get_blob`). -/
structure ContentSettingsRec where
  content_type : Option String
  content_encoding : Option String
  content_language : Option String
  content_disposition : Option String
  cache_control : Option String
  content_md5 : Option String
deriving DecidableEq, Repr

/-- All six content-settings fields absent (Python `None`). -/
def emptySettings : ContentSettingsRec :=
  { content_type := none, content_encoding := none, content_language := none,
    content_disposition := none, cache_control := none, content_md5 := none }

/-- Module parameters, as bound by `exec_module` from `module_arg_spec`
(plus `tags`/`purge_tags` from the common arg spec and the check-mode
flag of the harness). -/
structure Params where
  storage_account_name : String
  blob : Option String
  container : String
  dest : Option String
  force : Bool
  resource_group : String
  src : Option String
  state : String
  public_access : Option String
  content_type : Option String
  content_encoding : Option String
  content_language : Option String
  content_disposition : Option String
  cache_control : Option String
  content_md5 : Option String
  tags : Option Tags
  purge_tags : Bool
  check_mode : Bool

/-- Python truthiness of an optional string (`None` and `""` are falsy). -/
def strTruthy : Option String → Bool
  | none => false
  | some s => !s.isEmpty

/-- Python truthiness of an optional tag dictionary (`None` and `{}` falsy). -/
def tagsTruthy : Option Tags → Bool
  | none => false
  | some t => !t.isEmpty

/-- `self.content_type or self.content_encoding or ... or self.content_md5`:
at least one content-settings parameter is truthy. -/
def anyContentTruthy (p : Params) : Bool :=
  strTruthy p.content_type || strTruthy p.content_encoding
    || strTruthy p.content_language || strTruthy p.content_disposition
    || strTruthy p.cache_control || strTruthy p.content_md5

/-- The six-field record built from the supplied parameters, unsupplied
fields as null (`ContentSettings(...)` / the `settings` dict in
`blob_content_settings_differ`). -/
def mkContentSettings (p : Params) : ContentSettingsRec :=
  { content_type := p.content_type, content_encoding := p.content_encoding,
    content_language := p.content_language,
    content_disposition := p.content_disposition,
    cache_control := p.cache_control, content_md5 := p.content_md5 }

/-- A character allowed by `NAME_PATTERN`: the class `[a-z0-9-]`. -/
def nameChar (c : Char) : Bool :=
  (('a' ≤ c) && (c ≤ 'z')) || (('0' ≤ c) && (c ≤ '9')) || (c = '-')

/-- Two consecutive hyphens occur in the character list. -/
def hasDoubleHyphen : List Char → Bool
  | a :: b :: rest => ((a = '-') && (b = '-')) || hasDoubleHyphen (b :: rest)
  | _ => false

/-- `NAME_PATTERN.match`: the anchored regex
`(?!-)(?!.*--)[a-z0-9-]+$` — a non-empty string over `[a-z0-9-]` that does
not start with a hyphen and has no double hyphen.  `$` in a Python
non-multiline pattern also matches just before a single trailing newline,
which `re.match` therefore tolerates. -/
def matchNamePattern (s : String) : Bool :=
  let l := s.toList
  let t := if l.getLast? = some (Char.ofNat 10) then l.dropLast else l
  (!t.isEmpty) && t.all nameChar && !(t.head? = some '-') && !(hasDoubleHyphen t)

/-- Remote container record (what the store knows about a container). -/
structure ContainerRec where
  tags : Tags
  last_modified : String
deriving DecidableEq, Repr

/-- Remote blob record (what the store knows about a blob). -/
structure BlobRec where
  tags : Tags
  last_modified : String
  blob_type : String
  content_length : Nat
  content_settings : ContentSettingsRec
deriving DecidableEq, Repr

/-- The remote blob store: containers by name, blobs by
(container name, blob name). -/
structure Remote where
  containers : List (String × ContainerRec)
  blobs : List (String × String × BlobRec)
deriving DecidableEq, Repr

def Remote.findContainer (r : Remote) (c : String) : Option ContainerRec :=
  (r.containers.find? (fun e => e.1 = c)).map (fun e => e.2)

def Remote.setContainer (r : Remote) (c : String) (v : ContainerRec) : Remote :=
  { r with containers := (c, v) :: r.containers.filter (fun e => !(e.1 = c)) }

def Remote.removeContainer (r : Remote) (c : String) : Remote :=
  { r with containers := r.containers.filter (fun e => !(e.1 = c)) }

def Remote.findBlob (r : Remote) (c b : String) : Option BlobRec :=
  (r.blobs.find? (fun e => e.1 = c && e.2.1 = b)).map (fun e => e.2.2)

def Remote.setBlob (r : Remote) (c b : String) (v : BlobRec) : Remote :=
  { r with blobs := (c, b, v) :: r.blobs.filter (fun e => !(e.1 = c && e.2.1 = b)) }

def Remote.removeBlob (r : Remote) (c b : String) : Remote :=
  { r with blobs := r.blobs.filter (fun e => !(e.1 = c && e.2.1 = b)) }

/-- Number of blobs in container `c` (`len(list_blobs(container).items)`). -/
def Remote.blobsIn (r : Remote) (c : String) : Nat :=
  (r.blobs.filter (fun e => e.1 = c)).length

/-- The local filesystem as seen by `os.path` / `open` / `os.makedirs`:
which paths are regular files, which are directories, which files are
readable, and the environment-dependent `expanduser`/`expandvars`
substitution. -/
structure FS where
  files : List String
  dirs : List String
  readable : List String
  expand : String → String

/-- `self.container_obj`: the fact dictionary built by `get_container` —
empty (all fields `none`) when the container is absent. -/
structure ContainerObj where
  name : Option String
  tags : Option Tags
  last_mdoified : Option String
deriving DecidableEq, Repr

def ContainerObj.empty : ContainerObj := { name := none, tags := none, last_mdoified := none }

/-- Python truthiness of the container fact dictionary (non-empty dict). -/
def ContainerObj.truthy (o : ContainerObj) : Bool :=
  o.name.isSome || o.tags.isSome || o.last_mdoified.isSome

/-- `self.blob_obj`: the fact dictionary built by `get_blob` — empty (all
fields `none`) when the blob is absent.  The `type` key of the Python dict
is called `blob_type` here. -/
structure BlobObj where
  name : Option String
  tags : Option Tags
  last_modified : Option String
  blob_type : Option String
  content_length : Option Nat
  content_settings : Option ContentSettingsRec
deriving DecidableEq, Repr

def BlobObj.empty : BlobObj :=
  { name := none, tags := none, last_modified := none, blob_type := none,
    content_length := none, content_settings := none }

/-- Python truthiness of the blob fact dictionary (non-empty dict). -/
def BlobObj.truthy (o : BlobObj) : Bool :=
  o.name.isSome || o.tags.isSome || o.last_modified.isSome
    || o.blob_type.isSome || o.content_length.isSome || o.content_settings.isSome

/-- The result accumulator `self.results`. -/
structure Results where
  changed : Bool
  actions : List String
  container : ContainerObj
  blob : BlobObj
  check_mode : Bool
deriving DecidableEq, Repr

def Results.init : Results :=
  { changed := false, actions := [], container := ContainerObj.empty,
    blob := BlobObj.empty, check_mode := false }

/-- The full module state threaded through `exec_module`. -/
structure S where
  remote : Remote
  fs : FS
  calls : List String
  failed : Option String
  results : Results
  container_obj : ContainerObj
  blob_obj : BlobObj
  dest : Option String

/-- `self.fail(msg)`: record the failure (the Python exception aborts the
remaining steps; `exec_module` below checks `failed` after each step that
can raise). -/
def fail (msg : String) (s : S) : S := { s with failed := some msg }

/-- The container fact dictionary built by `get_container` from the remote
answer (`None` mapped to the empty dictionary). -/
def containerFacts (p : Params) : Option ContainerRec → ContainerObj
  | none => ContainerObj.empty
  | some cr =>
      { name := some p.container, tags := some cr.tags,
        last_mdoified := some cr.last_modified }

/-- `get_container`: read the container properties, mapping "missing
resource" to the empty fact dictionary. -/
def get_container (p : Params) (s : S) : ContainerObj × S :=
  if p.container.isEmpty then (ContainerObj.empty, s)
  else
    let s := { s with calls := s.calls ++ ["get_container_properties " ++ p.container] }
    (containerFacts p (s.remote.findContainer p.container), s)

/-- The blob fact dictionary built by `get_blob` from the remote answer
(`None` mapped to the empty dictionary). -/
def blobFacts (b : String) : Option BlobRec → BlobObj
  | none => BlobObj.empty
  | some br =>
      { name := some b, tags := some br.tags,
        last_modified := some br.last_modified,
        blob_type := some br.blob_type,
        content_length := some br.content_length,
        content_settings := some br.content_settings }

/-- `get_blob`: read the blob properties, mapping "missing resource" to the
empty fact dictionary. -/
def get_blob (p : Params) (s : S) : BlobObj × S :=
  if !(strTruthy p.blob) then (BlobObj.empty, s)
  else
    let b := p.blob.getD ""
    let s := { s with calls := s.calls ++ ["get_blob_properties " ++ p.container ++ ":" ++ b] }
    (blobFacts b (s.remote.findBlob p.container b), s)

/-- Timestamp the store stamps onto created resources (opaque here). -/
def storeStamp : String := "now"

/-- `create_container`: tags become container metadata only when no blob is
targeted and the tags are truthy; skipped by check mode; then the container
fact dictionary is refreshed and the result recorded. -/
def create_container (p : Params) (s : S) : S :=
  let tgs : Option Tags :=
    if !(strTruthy p.blob) && tagsTruthy p.tags then p.tags else none
  let s :=
    if !p.check_mode then
      { s with
          remote := s.remote.setContainer p.container
            { tags := tgs.getD [], last_modified := storeStamp },
          calls := s.calls ++ ["create_container " ++ p.container] }
    else s
  let gc := get_container p s
  let cobj := gc.1
  let s := gc.2
  { s with container_obj := cobj,
           results := { s.results with
             changed := true,
             actions := s.results.actions ++ ["created container " ++ p.container],
             container := cobj } }

/-- `upload_blob`: submit content settings only when at least one field is
truthy; skipped by check mode; then the blob fact dictionary is refreshed
and the result recorded. -/
def upload_blob (p : Params) (s : S) : S :=
  let b := p.blob.getD ""
  let srcPath := p.src.getD ""
  let cs : Option ContentSettingsRec :=
    if anyContentTruthy p then some (mkContentSettings p) else none
  let s :=
    if !p.check_mode then
      { s with
          remote := s.remote.setBlob p.container b
            { tags := p.tags.getD [], last_modified := storeStamp,
              blob_type := "BlockBlob", content_length := 0,
              content_settings := cs.getD emptySettings },
          calls := s.calls ++ ["create_blob_from_path " ++ p.container ++ ":" ++ b] }
    else s
  let gb := get_blob p s
  let bobj := gb.1
  let s := gb.2
  { s with blob_obj := bobj,
           results := { s.results with
             changed := true,
             actions := s.results.actions ++ ["created blob " ++ b ++ " from " ++ srcPath],
             container := s.container_obj,
             blob := bobj } }

/-- `download_blob`: fetch the blob to `self.dest` (fails when the remote
blob is missing); skipped by check mode; the result is recorded with the
current (not refreshed) fact dictionaries. -/
def download_blob (p : Params) (s : S) : S :=
  let b := p.blob.getD ""
  let dst := s.dest.getD ""
  let record := fun (s : S) =>
    { s with results := { s.results with
        changed := true,
        actions := s.results.actions
          ++ ["downloaded blob " ++ p.container ++ ":" ++ b ++ " to " ++ dst],
        container := s.container_obj,
        blob := s.blob_obj } }
  if !p.check_mode then
    let s := { s with calls := s.calls ++ ["get_blob_to_path " ++ p.container ++ ":" ++ b] }
    match s.remote.findBlob p.container b with
    | none =>
        fail ("Failed to download blob " ++ p.container ++ ":" ++ b ++ " to " ++ dst) s
    | some _ =>
        let s := { s with fs := { s.fs with files := dst :: s.fs.files } }
        record s
  else record s

/-- `src_is_valid`: the source must be an existing regular file and be
readable, else the invocation fails; returns `true` otherwise. -/
def src_is_valid (p : Params) (s : S) : Bool × S :=
  let srcPath := p.src.getD ""
  if !(s.fs.files.contains srcPath) then
    (false, fail "The source path must be a file." s)
  else if !(s.fs.readable.contains srcPath) then
    (false,
     fail ("Failed to access " ++ srcPath
       ++ ". Make sure the file exists and that you have read access.") s)
  else (true, s)

/-- `os.path.basename` (POSIX): the part after the last slash. -/
def basename (path : String) : String :=
  String.mk (path.toList.foldl (fun acc c => if c = '/' then [] else acc ++ [c]) [])

/-- Python `str.replace(old, '')` on character lists: remove every
non-overlapping occurrence of `pat`, scanning left to right.  The `Nat`
argument is structural fuel, instantiated with the list length. -/
def removeOccs (pat : List Char) : Nat → List Char → List Char
  | _, [] => []
  | 0, l => l
  | fuel + 1, c :: rest =>
      if pat.isPrefixOf (c :: rest) && !pat.isEmpty then
        removeOccs pat fuel (List.drop (pat.length - 1) rest)
      else c :: removeOccs pat fuel rest

/-- Python `str.replace(old, '')`: remove every occurrence of `pat`. -/
def strRemove (s pat : String) : String :=
  String.mk (removeOccs pat.toList s.toList.length s.toList)

/-- The final overwrite check of `dest_is_valid`: refuse when the (expanded)
destination file exists and force is not set. -/
def destFinalCheck (p : Params) (s : S) : Bool × S :=
  let d := s.dest.getD ""
  if s.fs.files.contains d && !p.force then (false, s) else (true, s)

/-- `dest_is_valid`: entirely skipped (returns `true`) in check mode.
Otherwise expand the path; when it has no basename (ends in a slash), an
existing directory gets the blob name appended, while a missing directory
hits the misspelled `os.makddirs`, which raises `AttributeError` (not
caught by `except IOError`); when it has a basename, the directory part
(computed by *replacing every occurrence* of the basename with the empty
string) is created if missing; finally refuse if the destination file
exists and force is not set. -/
def dest_is_valid (p : Params) (s : S) : Bool × S :=
  if !p.check_mode then
    let d0 := s.fs.expand (s.dest.getD "")
    let s := { s with dest := some d0 }
    if (basename d0).isEmpty then
      if s.fs.dirs.contains d0 then
        let s := { s with dest := some (d0 ++ p.blob.getD "") }
        destFinalCheck p s
      else
        (false, fail "AttributeError: module os has no attribute makddirs" s)
    else
      let fname := basename d0
      let path := strRemove d0 fname
      let s :=
        if s.fs.dirs.contains path then s
        else { s with fs := { s.fs with dirs := path :: s.fs.dirs } }
      destFinalCheck p s
  else (true, s)

/-- `delete_container`: skipped by check mode; records the deletion. -/
def delete_container (p : Params) (s : S) : S :=
  let s :=
    if !p.check_mode then
      { s with remote := s.remote.removeContainer p.container,
               calls := s.calls ++ ["delete_container " ++ p.container] }
    else s
  { s with results := { s.results with
      changed := true,
      actions := s.results.actions ++ ["deleted container " ++ p.container] } }

/-- `container_has_blobs`: list the blobs of the container and test whether
there is at least one. -/
def container_has_blobs (p : Params) (s : S) : Bool × S :=
  let s := { s with calls := s.calls ++ ["list_blobs " ++ p.container] }
  (decide (0 < s.remote.blobsIn p.container), s)

/-- `delete_blob`: skipped by check mode; records the deletion. -/
def delete_blob (p : Params) (s : S) : S :=
  let b := p.blob.getD ""
  let s :=
    if !p.check_mode then
      { s with remote := s.remote.removeBlob p.container b,
               calls := s.calls ++ ["delete_blob " ++ p.container ++ ":" ++ b] }
    else s
  { s with results := { s.results with
      changed := true,
      actions := s.results.actions ++ ["deleted blob " ++ p.container ++ ":" ++ b],
      container := s.container_obj } }

/-- `update_container_tags`: set the container metadata (failing when the
remote container is missing); skipped by check mode; then refresh the
container fact dictionary and record the update. -/
def update_container_tags (p : Params) (tgs : Tags) (s : S) : S :=
  let record := fun (s : S) =>
    let gc := get_container p s
    let cobj := gc.1
    let s := gc.2
    { s with container_obj := cobj,
             results := { s.results with
               changed := true,
               actions := s.results.actions ++ ["updated container " ++ p.container ++ " tags."],
               container := cobj } }
  if !p.check_mode then
    let s := { s with calls := s.calls ++ ["set_container_metadata " ++ p.container] }
    match s.remote.findContainer p.container with
    | none => fail ("Error updating container tags " ++ p.container) s
    | some cr =>
        record { s with remote := s.remote.setContainer p.container { cr with tags := tgs } }
  else record s

/-- `update_blob_tags`: set the blob metadata (failing when the remote blob
is missing); skipped by check mode; then refresh the blob fact dictionary
and record the update. -/
def update_blob_tags (p : Params) (tgs : Tags) (s : S) : S :=
  let b := p.blob.getD ""
  let record := fun (s : S) =>
    let gb := get_blob p s
    let bobj := gb.1
    let s := gb.2
    { s with blob_obj := bobj,
             results := { s.results with
               changed := true,
               actions := s.results.actions
                 ++ ["updated blob " ++ p.container ++ ":" ++ b ++ " tags."],
               container := s.container_obj,
               blob := bobj } }
  if !p.check_mode then
    let s := { s with calls := s.calls ++ ["set_blob_metadata " ++ p.container ++ ":" ++ b] }
    match s.remote.findBlob p.container b with
    | none => fail ("Update blob tags " ++ p.container ++ ":" ++ b) s
    | some br =>
        record { s with remote := s.remote.setBlob p.container b { br with tags := tgs } }
  else record s

/-- `blob_content_settings_differ`: when at least one content field is
truthy, compare the six-field record against
`self.blob_obj['content_settings']` — an unguarded dictionary lookup that
raises `KeyError` on the empty fact dictionary of an absent blob. -/
def blob_content_settings_differ (p : Params) (s : S) : Bool × S :=
  if anyContentTruthy p then
    match s.blob_obj.content_settings with
    | none => (false, fail "KeyError: content_settings" s)
    | some cur => (!(cur = mkContentSettings p : Bool), s)
  else (false, s)

/-- `update_blob_content_settings`: submit all six fields together
(unsupplied fields as null, full replace); skipped by check mode; then
refresh the blob fact dictionary and record the update. -/
def update_blob_content_settings (p : Params) (s : S) : S :=
  let b := p.blob.getD ""
  let cs := mkContentSettings p
  let record := fun (s : S) =>
    let gb := get_blob p s
    let bobj := gb.1
    let s := gb.2
    { s with blob_obj := bobj,
             results := { s.results with
               changed := true,
               actions := s.results.actions
                 ++ ["updated blob " ++ p.container ++ ":" ++ b ++ " content settings."],
               container := s.container_obj,
               blob := bobj } }
  if !p.check_mode then
    let s := { s with calls := s.calls ++ ["set_blob_properties " ++ p.container ++ ":" ++ b] }
    match s.remote.findBlob p.container b with
    | none => fail ("Update blob content settings " ++ p.container ++ ":" ++ b) s
    | some br =>
        record { s with remote := s.remote.setBlob p.container b { br with content_settings := cs } }
  else record s

/-- Lines 328-335: the upload / download part of the blob branch.  A raised
validation failure aborts; a blob that exists without force only logs. -/
def transferStep (p : Params) (s : S) : S :=
  if strTruthy p.src then
    let s := (src_is_valid p s).2
    if s.failed.isSome then s
    else if s.blob_obj.truthy && !p.force then s
    else upload_blob p s
  else if strTruthy p.dest then
    let dv := dest_is_valid p s
    let ok := dv.1
    let s := dv.2
    if s.failed.isSome then s
    else if ok then download_blob p s
    else s
  else s

/-- Lines 337-339: blob tag reconciliation (`self.blob_obj['tags']` is
assigned the merged mapping before the conditional update call). -/
def blobTagStep (p : Params) (s : S) : S :=
  let ut := update_tags s.blob_obj.tags p.tags p.purge_tags
  let fl := ut.1
  let merged := ut.2
  let s := { s with blob_obj := { s.blob_obj with tags := some merged } }
  if fl then update_blob_tags p merged s else s

/-- Lines 341-342: content-settings reconciliation. -/
def settingsStep (p : Params) (s : S) : S :=
  let bd := blob_content_settings_differ p s
  let df := bd.1
  let s := bd.2
  if s.failed.isSome then s
  else if df then update_blob_content_settings p s
  else s

/-- The blob part of the `state == 'present'` branch (lines 326-342):
upload / download, blob tag reconciliation, content-settings
reconciliation. -/
def blobBranch (p : Params) (s : S) : S :=
  let s := transferStep p s
  if s.failed.isSome then s
  else
    let s := blobTagStep p s
    if s.failed.isSome then s
    else settingsStep p s

/-- Lines 320-324: container tag reconciliation
(`self.container_obj['tags']` is assigned the merged mapping before the
conditional update call). -/
def containerTagStep (p : Params) (s : S) : S :=
  let ut := update_tags s.container_obj.tags p.tags p.purge_tags
  let fl := ut.1
  let merged := ut.2
  let s := { s with container_obj := { s.container_obj with tags := some merged } }
  if fl then update_container_tags p merged s else s

/-- The `state == 'present'` branch (lines 316-342). -/
def presentBranch (p : Params) (s : S) : S :=
  let s :=
    if !s.container_obj.truthy then create_container p s
    else if s.container_obj.truthy && !(strTruthy p.blob) then containerTagStep p s
    else s
  if s.failed.isSome then s
  else if strTruthy p.blob then blobBranch p s
  else s

/-- The `state == 'absent'` branch (lines 344-357). -/
def absentBranch (p : Params) (s : S) : S :=
  if s.container_obj.truthy && !(strTruthy p.blob) then
    let ch := container_has_blobs p s
    let hasB := ch.1
    let s := ch.2
    if hasB then
      if p.force then delete_container p s else s
    else delete_container p s
  else if s.container_obj.truthy && s.blob_obj.truthy then delete_blob p s
  else s

/-- `exec_module` (lines 296-359): record check mode, validate the container
name, fetch the container and (when a blob parameter was given) blob facts,
then dispatch on the desired state. -/
def exec_module (p : Params) (s : S) : S :=
  let s := { s with results := { s.results with check_mode := p.check_mode } }
  if !matchNamePattern p.container then
    fail ("Parameter error: container_name must consist of lowercase letters, "
      ++ "numbers and hyphens. It must begin with a letter or number. It may "
      ++ "not contain two consecutive hyphens.") s
  else
    let gc := get_container p s
    let s := { gc.2 with container_obj := gc.1 }
    let s :=
      if p.blob.isSome then
        let gb := get_blob p s
        { gb.2 with blob_obj := gb.1 }
      else s
    if p.state = "present" then presentBranch p s
    else if p.state = "absent" then absentBranch p s
    else s

/-- The world outside the module: remote store and local filesystem. -/
structure Env where
  remote : Remote
  fs : FS

/-- The initial module state for one invocation (`self.results` starts as
`changed=False, actions=[]` with empty fact dictionaries). -/
def initS (p : Params) (env : Env) : S :=
  { remote := env.remote, fs := env.fs, calls := [], failed := none,
    results := Results.init, container_obj := ContainerObj.empty,
    blob_obj := BlobObj.empty, dest := p.dest }

/-- Modelled from the spec: the mutually-exclusive `src`/`dest` validation
is performed by the argument-parsing harness (`module_utils`, not in
`src/`) before `exec_module` runs, aborting before any remote call. -/
def runModule (p : Params) (env : Env) : S :=
  if p.src.isSome && p.dest.isSome then
    fail "parameters are mutually exclusive: src|dest" (initS p env)
  else exec_module p (initS p env)

/-! ### Concrete fixtures used to instantiate the theorems -/

/-- A baseline parameter record: container only, all optional inputs unset. -/
def baseParams : Params :=
  { storage_account_name := "acct", blob := none, container := "con",
    dest := none, force := false, resource_group := "rg", src := none,
    state := "present", public_access := none, content_type := none,
    content_encoding := none, content_language := none,
    content_disposition := none, cache_control := none, content_md5 := none,
    tags := none, purge_tags := false, check_mode := false }

/-- An empty filesystem with the identity expansion environment. -/
def emptyFS : FS := { files := [], dirs := [], readable := [], expand := id }

/-- A remote store holding container `con` with one blob `b`. -/
def remoteConB : Remote :=
  { containers := [("con", { tags := [], last_modified := "t1" })],
    blobs := [("con", "b",
      { tags := [], last_modified := "t1", blob_type := "BlockBlob",
        content_length := 4, content_settings := emptySettings })] }

/-- A remote store holding container `con` with no blobs. -/
def remoteConOnly : Remote :=
  { containers := [("con", { tags := [], last_modified := "t1" })], blobs := [] }

/-- Invocation asking for the container to be absent. -/
def pAbs : Params := { baseParams with state := "absent" }

/-- The empty remote store. -/
def remoteEmpty : Remote := { containers := [], blobs := [] }

/-- Invocation uploading `/s/a.png` to blob `b`. -/
def pUp : Params := { baseParams with blob := some "b", src := some "/s/a.png" }

/-- Environment for `pUp`: empty store, readable source file. -/
def envUp : Env :=
  { remote := remoteEmpty,
    fs := { files := ["/s/a.png"], dirs := [], readable := ["/s/a.png"], expand := id } }

/-- A filesystem holding the readable source file `/tmp/a.png`. -/
def fsTmpPng : FS :=
  { files := ["/tmp/a.png"], dirs := [], readable := ["/tmp/a.png"], expand := id }

/-- Invocation uploading `/tmp/a.png` onto existing blob `b` without force. -/
def pBlobNoForce : Params :=
  { baseParams with blob := some "b", src := some "/tmp/a.png" }

/-- Environment for `pBlobNoForce`: blob `b` already exists. -/
def envBlobNoForce : Env := { remote := remoteConB, fs := fsTmpPng }

/-- Invocation uploading `/tmp/a.png` to absent blob `x`. -/
def pUx : Params := { baseParams with blob := some "x", src := some "/tmp/a.png" }

/-- Environment for `pUx`: container `con` exists, blob `x` does not. -/
def envUx : Env := { remote := remoteConOnly, fs := fsTmpPng }

/-- Remote store whose blob `b` carries a `text/plain` content type. -/
def remoteConBText : Remote :=
  { containers := [("con", { tags := [], last_modified := "t1" })],
    blobs := [("con", "b",
      { tags := [], last_modified := "t1", blob_type := "BlockBlob",
        content_length := 4,
        content_settings := { emptySettings with content_type := some "text/plain" } })] }

/-- Invocation supplying the empty string as `content_type` for blob `b`. -/
def pEmptyCT : Params := { baseParams with blob := some "b", content_type := some "" }

/-- Invocation supplying `image/png` as `content_type` for blob `b`. -/
def pPngCT : Params := { baseParams with blob := some "b", content_type := some "image/png" }

/-- Environment with blob `b` carrying `text/plain` content settings. -/
def envCT : Env := { remote := remoteConBText, fs := emptyFS }

/-- Invocation supplying a `content_type` for the absent blob `x`. -/
def pAbsentCT : Params :=
  { baseParams with blob := some "x", content_type := some "image/png" }

/-- Invocation declaring the container tag `k=v`. -/
def pTagUpd : Params := { baseParams with tags := some [("k", "v")] }

/-- Invocation declaring the blob tag `k=v` on blob `b`. -/
def pBlobTagUpd : Params :=
  { baseParams with blob := some "b", tags := some [("k", "v")] }

/-- Environment: container `con` with no blobs, empty filesystem. -/
def envConOnly : Env := { remote := remoteConOnly, fs := emptyFS }

/-- Invocation uploading from a source path that does not exist. -/
def pSrcMissing : Params :=
  { baseParams with blob := some "b", src := some "/no/file.txt" }

/-- Invocation downloading blob `b` to a missing directory given with a
trailing slash (no basename). -/
def pDestDir : Params :=
  { baseParams with blob := some "b", dest := some "/data/newdir/" }

/-- Invocation supplying the empty string as `content_type` for the absent
blob `x`, with no src. -/
def pAbsentEmptyCT : Params :=
  { baseParams with blob := some "x", content_type := some "" }

/-- Environment with an empty remote store and an empty filesystem. -/
def envEmptyAll : Env := { remote := remoteEmpty, fs := emptyFS }

/-- Invocation that downloads blob `b` to an existing destination file, in
check mode. -/
def pDl : Params :=
  { baseParams with blob := some "b", dest := some "/d/f.txt", check_mode := true }

/-- Environment for `pDl`: the destination file already exists. -/
def envDl : Env :=
  { remote := remoteConB,
    fs := { files := ["/d/f.txt"], dirs := ["/d/"], readable := [], expand := id } }

/-! ### Dictionary lemmas -/

theorem tagLookup_nil (k : String) : tagLookup [] k = none := rfl

theorem tagLookup_cons (hd : String × String) (t : Tags) (k : String) :
    tagLookup (hd :: t) k = if hd.1 = k then some hd.2 else tagLookup t k := by
  by_cases h : hd.1 = k <;> simp [tagLookup, List.find?_cons, h]

theorem tagLookup_append (a b : Tags) (k : String) :
    tagLookup (a ++ b) k = (tagLookup a k).or (tagLookup b k) := by
  induction a with
  | nil => simp [tagLookup]
  | cons hd t ih =>
      by_cases h : hd.1 = k <;>
        simp [tagLookup_cons, h, ih]

theorem tagLookup_filter_of_none (c d : Tags) (k : String)
    (h : tagLookup d k = none) :
    tagLookup (c.filter (fun p => (tagLookup d p.1).isNone)) k = tagLookup c k := by
  induction c with
  | nil => rfl
  | cons hd t ih =>
      by_cases hk : hd.1 = k
      · have hnd : tagLookup d hd.1 = none := by rw [hk]; exact h
        simp [List.filter_cons, hnd, h, tagLookup_cons, hk]
      · cases hnd : (tagLookup d hd.1).isNone <;>
          simp [List.filter_cons, hnd, tagLookup_cons, hk, ih]

theorem tagLookup_filter_of_some (c d : Tags) (k : String)
    (h : (tagLookup d k).isSome = true) :
    tagLookup (c.filter (fun p => (tagLookup d p.1).isNone)) k = none := by
  induction c with
  | nil => rfl
  | cons hd t ih =>
      by_cases hk : hd.1 = k
      · have hnd : (tagLookup d hd.1).isNone = false := by
          rw [hk]; cases hv : tagLookup d k <;> simp [hv] at h ⊢
        simp [List.filter_cons, hnd, ih]
      · cases hnd : (tagLookup d hd.1).isNone <;>
          simp [List.filter_cons, hnd, tagLookup_cons, hk, ih]

/-- The merge of `mergeTags`, pointwise: the declared value wins when
present, the current value survives otherwise. -/
theorem mergeTags_lookup (c d : Tags) (k : String) :
    tagLookup (mergeTags c d) k = (tagLookup d k).or (tagLookup c k) := by
  unfold mergeTags
  rw [tagLookup_append]
  cases hd : tagLookup d k with
  | none => rw [tagLookup_filter_of_none c d k hd]; simp
  | some v =>
      rw [tagLookup_filter_of_some c d k (by simp [hd])]
      simp

/-- `dictBeq` is extensional dictionary equality. -/
theorem dictBeq_iff (a b : Tags) :
    dictBeq a b = true ↔ ∀ k, tagLookup a k = tagLookup b k := by
  constructor
  · intro h k
    simp only [dictBeq, Bool.and_eq_true, List.all_eq_true] at h
    obtain ⟨h1, h2⟩ := h
    cases ha : tagLookup a k with
    | some v =>
        obtain ⟨pr, hpr, hv⟩ : ∃ pr, a.find? (fun p => p.1 = k) = some pr ∧ pr.2 = v := by
          unfold tagLookup at ha
          cases hf : a.find? (fun p => p.1 = k) <;> simp [hf] at ha
          · exact ⟨_, rfl, ha⟩
        have hmem : pr ∈ a := List.mem_of_find?_eq_some hpr
        have hk : pr.1 = k := by
          have := List.find?_some hpr
          simpa using this
        have := h1 pr hmem
        rw [hk] at this
        rw [← ha]
        simpa using this
    | none =>
        cases hb : tagLookup b k with
        | none => rfl
        | some w =>
            obtain ⟨pr, hpr, hv⟩ : ∃ pr, b.find? (fun p => p.1 = k) = some pr ∧ pr.2 = w := by
              unfold tagLookup at hb
              cases hf : b.find? (fun p => p.1 = k) <;> simp [hf] at hb
              · exact ⟨_, rfl, hb⟩
            have hmem : pr ∈ b := List.mem_of_find?_eq_some hpr
            have hk : pr.1 = k := by
              have := List.find?_some hpr
              simpa using this
            have h3 : tagLookup a pr.1 = tagLookup b pr.1 := by
              simpa using h2 pr hmem
            rw [hk, ha, hb] at h3
            exact h3
  · intro h
    simp only [dictBeq, Bool.and_eq_true, List.all_eq_true]
    constructor <;> intro p _ <;> simp [h p.1]

theorem dictBeq_refl (a : Tags) : dictBeq a a = true := by
  rw [dictBeq_iff]; intro k; rfl

theorem dictBeq_mergeTags_self (cur : Tags) : dictBeq (mergeTags cur cur) cur = true := by
  rw [dictBeq_iff]
  intro k
  rw [mergeTags_lookup]
  cases h : tagLookup cur k <;> simp [h]

/-- Reapplying tags that already equal the current mapping reports no
difference (tag-diff idempotence at the call sites after an upload). -/
theorem update_tags_self (cur : Tags) (d : Option Tags) (purge : Bool)
    (hd : d.getD [] = cur) :
    (update_tags (some cur) d purge).1 = false := by
  unfold update_tags
  dsimp only
  simp only [Option.getD_some]
  rw [hd]
  split
  · simp [dictBeq_refl]
  · simp [dictBeq_mergeTags_self]

/-! ### Remote store lemmas -/

theorem find?_filter_not {α : Type} (q : α → Bool) (l : List α) :
    (l.filter (fun e => !(q e))).find? q = none := by
  induction l with
  | nil => rfl
  | cons hd t ih =>
      cases hq : q hd <;> simp [List.filter_cons, hq, List.find?_cons, ih]

theorem findContainer_remove (r : Remote) (c : String) :
    (r.removeContainer c).findContainer c = none := by
  unfold Remote.removeContainer Remote.findContainer
  rw [show (fun (e : String × ContainerRec) => !(e.1 = c : Bool))
        = (fun e => !((fun (e : String × ContainerRec) => (e.1 = c : Bool)) e)) from rfl]
  rw [find?_filter_not]
  rfl

theorem findContainer_set_self (r : Remote) (c : String) (v : ContainerRec) :
    (r.setContainer c v).findContainer c = some v := by
  simp [Remote.setContainer, Remote.findContainer, List.find?_cons]

theorem findBlob_set_self (r : Remote) (c b : String) (v : BlobRec) :
    (r.setBlob c b v).findBlob c b = some v := by
  simp [Remote.setBlob, Remote.findBlob, List.find?_cons]

theorem findBlob_setContainer (r : Remote) (c0 : String) (v : ContainerRec)
    (c b : String) :
    (r.setContainer c0 v).findBlob c b = r.findBlob c b := rfl

theorem findContainer_setBlob (r : Remote) (c0 b0 : String) (v : BlobRec)
    (c : String) :
    (r.setBlob c0 b0 v).findContainer c = r.findContainer c := rfl

theorem findBlob_remove (r : Remote) (c b : String) :
    (r.removeBlob c b).findBlob c b = none := by
  unfold Remote.removeBlob Remote.findBlob
  rw [show (fun (e : String × String × BlobRec) => !(e.1 = c && e.2.1 = b))
        = (fun e => !((fun (e : String × String × BlobRec) => (e.1 = c && e.2.1 = b)) e)) from rfl]
  rw [find?_filter_not]
  rfl

/-- A validated container name is non-empty. -/
theorem isEmpty_false_of_match (s : String) (h : matchNamePattern s = true) :
    s.isEmpty = false := by
  cases he : s.isEmpty
  · rfl
  · exfalso
    have hs0 : s = "" := by
      cases s with
      | mk data =>
          cases data with
          | nil => rfl
          | cons a l =>
              exfalso
              simp [String.isEmpty] at he
              have h2 : String.utf8Len l + a.utf8Size = 0 :=
                congrArg String.Pos.byteIdx he
              have h3 := Char.utf8Size_pos a
              omega
    subst hs0
    simp [matchNamePattern] at h

/-! ### Method-level projection lemmas -/

theorem results_fail (m : String) (s : S) : (fail m s).results = s.results := rfl

theorem remote_fail (m : String) (s : S) : (fail m s).remote = s.remote := rfl

theorem fs_fail (m : String) (s : S) : (fail m s).fs = s.fs := rfl

theorem results_get_container (p : Params) (s : S) :
    (get_container p s).2.results = s.results := by
  unfold get_container; split <;> rfl

theorem remote_get_container (p : Params) (s : S) :
    (get_container p s).2.remote = s.remote := by
  unfold get_container; split <;> rfl

theorem fs_get_container (p : Params) (s : S) :
    (get_container p s).2.fs = s.fs := by
  unfold get_container; split <;> rfl

theorem failed_get_container (p : Params) (s : S) :
    (get_container p s).2.failed = s.failed := by
  unfold get_container; split <;> rfl

theorem blob_obj_get_container (p : Params) (s : S) :
    (get_container p s).2.blob_obj = s.blob_obj := by
  unfold get_container; split <;> rfl

theorem results_get_blob (p : Params) (s : S) :
    (get_blob p s).2.results = s.results := by
  unfold get_blob; split <;> rfl

theorem remote_get_blob (p : Params) (s : S) :
    (get_blob p s).2.remote = s.remote := by
  unfold get_blob; split <;> rfl

theorem fs_get_blob (p : Params) (s : S) :
    (get_blob p s).2.fs = s.fs := by
  unfold get_blob; split <;> rfl

theorem failed_get_blob (p : Params) (s : S) :
    (get_blob p s).2.failed = s.failed := by
  unfold get_blob; split <;> rfl

theorem results_src_is_valid (p : Params) (s : S) :
    (src_is_valid p s).2.results = s.results := by
  unfold src_is_valid; dsimp only; split <;> [rfl; skip]; split <;> rfl

theorem remote_src_is_valid (p : Params) (s : S) :
    (src_is_valid p s).2.remote = s.remote := by
  unfold src_is_valid; dsimp only; split <;> [rfl; skip]; split <;> rfl

theorem fs_src_is_valid (p : Params) (s : S) :
    (src_is_valid p s).2.fs = s.fs := by
  unfold src_is_valid; dsimp only; split <;> [rfl; skip]; split <;> rfl

theorem blob_obj_destFinalCheck (p : Params) (s : S) :
    (destFinalCheck p s).2.blob_obj = s.blob_obj := by
  unfold destFinalCheck; dsimp only; split <;> rfl

theorem results_destFinalCheck (p : Params) (s : S) :
    (destFinalCheck p s).2.results = s.results := by
  unfold destFinalCheck; dsimp only; split <;> rfl

theorem remote_destFinalCheck (p : Params) (s : S) :
    (destFinalCheck p s).2.remote = s.remote := by
  unfold destFinalCheck; dsimp only; split <;> rfl

theorem fs_destFinalCheck (p : Params) (s : S) :
    (destFinalCheck p s).2.fs = s.fs := by
  unfold destFinalCheck; dsimp only; split <;> rfl

theorem failed_destFinalCheck (p : Params) (s : S) :
    (destFinalCheck p s).2.failed = s.failed := by
  unfold destFinalCheck; dsimp only; split <;> rfl

theorem results_dest_is_valid (p : Params) (s : S) :
    (dest_is_valid p s).2.results = s.results := by
  unfold dest_is_valid
  dsimp only
  split
  · split
    · split
      · rw [results_destFinalCheck]
      · rfl
    · split <;> rw [results_destFinalCheck]
  · rfl

theorem remote_dest_is_valid (p : Params) (s : S) :
    (dest_is_valid p s).2.remote = s.remote := by
  unfold dest_is_valid
  dsimp only
  split
  · split
    · split
      · rw [remote_destFinalCheck]
      · rfl
    · split <;> rw [remote_destFinalCheck]
  · rfl

theorem blob_obj_dest_is_valid (p : Params) (s : S) :
    (dest_is_valid p s).2.blob_obj = s.blob_obj := by
  unfold dest_is_valid
  dsimp only
  split
  · split
    · split
      · rw [blob_obj_destFinalCheck]
      · rfl
    · split <;> rw [blob_obj_destFinalCheck]
  · rfl

theorem remote_download_blob (p : Params) (s : S) :
    (download_blob p s).remote = s.remote := by
  unfold download_blob
  dsimp only
  split
  · split <;> rfl
  · rfl

theorem blob_obj_download_blob (p : Params) (s : S) :
    (download_blob p s).blob_obj = s.blob_obj := by
  unfold download_blob
  dsimp only
  split
  · split <;> rfl
  · rfl

theorem failed_download_blob (p : Params) (s : S) :
    (download_blob p s).failed = s.failed ∨ (download_blob p s).failed.isSome = true := by
  unfold download_blob
  dsimp only
  split
  · split
    · right; rfl
    · left; rfl
  · left; rfl

theorem results_container_has_blobs (p : Params) (s : S) :
    (container_has_blobs p s).2.results = s.results := rfl

theorem remote_container_has_blobs (p : Params) (s : S) :
    (container_has_blobs p s).2.remote = s.remote := rfl

theorem fs_container_has_blobs (p : Params) (s : S) :
    (container_has_blobs p s).2.fs = s.fs := rfl

theorem results_content_differ (p : Params) (s : S) :
    (blob_content_settings_differ p s).2.results = s.results := by
  unfold blob_content_settings_differ
  split <;> [skip; rfl]; split <;> rfl

theorem remote_content_differ (p : Params) (s : S) :
    (blob_content_settings_differ p s).2.remote = s.remote := by
  unfold blob_content_settings_differ
  split <;> [skip; rfl]; split <;> rfl

theorem fs_content_differ (p : Params) (s : S) :
    (blob_content_settings_differ p s).2.fs = s.fs := by
  unfold blob_content_settings_differ
  split <;> [skip; rfl]; split <;> rfl

/-! ### Check-mode frame equations: no remote or filesystem mutation -/

theorem check_dest_is_valid (p : Params) (s : S) (hc : p.check_mode = true) :
    dest_is_valid p s = (true, s) := by
  unfold dest_is_valid; rw [hc]; rfl

theorem check_remote_create_container (p : Params) (s : S) (hc : p.check_mode = true) :
    (create_container p s).remote = s.remote := by
  unfold create_container; rw [hc]; simp [remote_get_container]

theorem check_fs_create_container (p : Params) (s : S) (hc : p.check_mode = true) :
    (create_container p s).fs = s.fs := by
  unfold create_container; rw [hc]; simp [fs_get_container]

theorem check_remote_upload_blob (p : Params) (s : S) (hc : p.check_mode = true) :
    (upload_blob p s).remote = s.remote := by
  unfold upload_blob; rw [hc]; simp [remote_get_blob]

theorem check_fs_upload_blob (p : Params) (s : S) (hc : p.check_mode = true) :
    (upload_blob p s).fs = s.fs := by
  unfold upload_blob; rw [hc]; simp [fs_get_blob]

theorem check_remote_download_blob (p : Params) (s : S) (hc : p.check_mode = true) :
    (download_blob p s).remote = s.remote := by
  unfold download_blob; rw [hc]; rfl

theorem check_fs_download_blob (p : Params) (s : S) (hc : p.check_mode = true) :
    (download_blob p s).fs = s.fs := by
  unfold download_blob; rw [hc]; rfl

theorem check_remote_delete_container (p : Params) (s : S) (hc : p.check_mode = true) :
    (delete_container p s).remote = s.remote := by
  unfold delete_container; rw [hc]; rfl

theorem check_fs_delete_container (p : Params) (s : S) (hc : p.check_mode = true) :
    (delete_container p s).fs = s.fs := by
  unfold delete_container; rw [hc]; rfl

theorem check_remote_delete_blob (p : Params) (s : S) (hc : p.check_mode = true) :
    (delete_blob p s).remote = s.remote := by
  unfold delete_blob; rw [hc]; rfl

theorem check_fs_delete_blob (p : Params) (s : S) (hc : p.check_mode = true) :
    (delete_blob p s).fs = s.fs := by
  unfold delete_blob; rw [hc]; rfl

theorem check_remote_update_container_tags (p : Params) (t : Tags) (s : S)
    (hc : p.check_mode = true) :
    (update_container_tags p t s).remote = s.remote := by
  unfold update_container_tags; rw [hc]; simp [remote_get_container]

theorem check_fs_update_container_tags (p : Params) (t : Tags) (s : S)
    (hc : p.check_mode = true) :
    (update_container_tags p t s).fs = s.fs := by
  unfold update_container_tags; rw [hc]; simp [fs_get_container]

theorem check_remote_update_blob_tags (p : Params) (t : Tags) (s : S)
    (hc : p.check_mode = true) :
    (update_blob_tags p t s).remote = s.remote := by
  unfold update_blob_tags; rw [hc]; simp [remote_get_blob]

theorem check_fs_update_blob_tags (p : Params) (t : Tags) (s : S)
    (hc : p.check_mode = true) :
    (update_blob_tags p t s).fs = s.fs := by
  unfold update_blob_tags; rw [hc]; simp [fs_get_blob]

theorem check_remote_update_blob_content_settings (p : Params) (s : S)
    (hc : p.check_mode = true) :
    (update_blob_content_settings p s).remote = s.remote := by
  unfold update_blob_content_settings; rw [hc]; simp [remote_get_blob]

theorem check_fs_update_blob_content_settings (p : Params) (s : S)
    (hc : p.check_mode = true) :
    (update_blob_content_settings p s).fs = s.fs := by
  unfold update_blob_content_settings; rw [hc]; simp [fs_get_blob]

/-! ### The result-record invariant (C9): `changed` iff some action -/

/-- The invariant of the result record: `changed` is true exactly when the
actions list is non-empty. -/
def resInv (r : Results) : Prop := r.changed = true ↔ r.actions ≠ []

theorem resInv_init : resInv Results.init := by
  simp [resInv, Results.init]

theorem resInv_create_container (p : Params) (s : S) :
    resInv (create_container p s).results := by
  unfold create_container
  dsimp only
  simp [resInv]

theorem resInv_upload_blob (p : Params) (s : S) :
    resInv (upload_blob p s).results := by
  unfold upload_blob
  dsimp only
  simp [resInv]

theorem resInv_download_blob (p : Params) (s : S) (h : resInv s.results) :
    resInv (download_blob p s).results := by
  unfold download_blob
  dsimp only
  split
  · split
    · exact h
    · simp [resInv]
  · simp [resInv]

theorem resInv_delete_container (p : Params) (s : S) :
    resInv (delete_container p s).results := by
  unfold delete_container
  dsimp only
  simp [resInv]

theorem resInv_delete_blob (p : Params) (s : S) :
    resInv (delete_blob p s).results := by
  unfold delete_blob
  dsimp only
  simp [resInv]

theorem resInv_update_container_tags (p : Params) (t : Tags) (s : S)
    (h : resInv s.results) :
    resInv (update_container_tags p t s).results := by
  unfold update_container_tags
  dsimp only
  split
  · split
    · exact h
    · simp [resInv]
  · simp [resInv]

theorem resInv_update_blob_tags (p : Params) (t : Tags) (s : S)
    (h : resInv s.results) :
    resInv (update_blob_tags p t s).results := by
  unfold update_blob_tags
  dsimp only
  split
  · split
    · exact h
    · simp [resInv]
  · simp [resInv]

theorem resInv_update_blob_content_settings (p : Params) (s : S)
    (h : resInv s.results) :
    resInv (update_blob_content_settings p s).results := by
  unfold update_blob_content_settings
  dsimp only
  split
  · split
    · exact h
    · simp [resInv]
  · simp [resInv]

theorem resInv_transferStep (p : Params) (s : S) (h : resInv s.results) :
    resInv (transferStep p s).results := by
  unfold transferStep
  dsimp only
  split
  · split
    · simpa [results_src_is_valid] using h
    · split
      · simpa [results_src_is_valid] using h
      · exact resInv_upload_blob p _
  · split
    · split
      · simpa [results_dest_is_valid] using h
      · split
        · exact resInv_download_blob p _ (by simpa [results_dest_is_valid] using h)
        · simpa [results_dest_is_valid] using h
    · exact h

theorem resInv_blobTagStep (p : Params) (s : S) (h : resInv s.results) :
    resInv (blobTagStep p s).results := by
  unfold blobTagStep
  dsimp only
  split
  · exact resInv_update_blob_tags p _ _ h
  · exact h

theorem resInv_settingsStep (p : Params) (s : S) (h : resInv s.results) :
    resInv (settingsStep p s).results := by
  unfold settingsStep
  dsimp only
  split
  · simpa [results_content_differ] using h
  · split
    · exact resInv_update_blob_content_settings p _
        (by simpa [results_content_differ] using h)
    · simpa [results_content_differ] using h

theorem resInv_blobBranch (p : Params) (s : S) (h : resInv s.results) :
    resInv (blobBranch p s).results := by
  unfold blobBranch
  dsimp only
  split
  · exact resInv_transferStep p s h
  · split
    · exact resInv_blobTagStep p _ (resInv_transferStep p s h)
    · exact resInv_settingsStep p _ (resInv_blobTagStep p _ (resInv_transferStep p s h))

theorem resInv_containerTagStep (p : Params) (s : S) (h : resInv s.results) :
    resInv (containerTagStep p s).results := by
  unfold containerTagStep
  dsimp only
  split
  · exact resInv_update_container_tags p _ _ h
  · exact h

theorem resInv_presentBranch (p : Params) (s : S) (h : resInv s.results) :
    resInv (presentBranch p s).results := by
  unfold presentBranch
  dsimp only
  have hmid : ∀ t : S, resInv t.results →
      resInv (if t.failed.isSome = true then t
        else if strTruthy p.blob = true then blobBranch p t else t).results := by
    intro t ht
    split
    · exact ht
    · split
      · exact resInv_blobBranch p t ht
      · exact ht
  split
  · exact hmid _ (resInv_create_container p s)
  · split
    · exact hmid _ (resInv_containerTagStep p s h)
    · exact hmid _ h

theorem resInv_absentBranch (p : Params) (s : S) (h : resInv s.results) :
    resInv (absentBranch p s).results := by
  unfold absentBranch
  dsimp only
  split
  · split
    · split
      · exact resInv_delete_container p _
      · simpa [results_container_has_blobs] using h
    · exact resInv_delete_container p _
  · split
    · exact resInv_delete_blob p _
    · exact h

theorem resInv_exec_module (p : Params) (s : S) (h : resInv s.results) :
    resInv (exec_module p s).results := by
  unfold exec_module
  dsimp only
  split
  · exact h
  · split
    · apply resInv_presentBranch
      split
      · simpa [resInv, results_get_blob, results_get_container] using h
      · simpa [resInv, results_get_container] using h
    · split
      · apply resInv_absentBranch
        split
        · simpa [resInv, results_get_blob, results_get_container] using h
        · simpa [resInv, results_get_container] using h
      · split
        · simpa [resInv, results_get_blob, results_get_container] using h
        · simpa [resInv, results_get_container] using h

/-! ### Check-mode frame lemmas for composite steps -/

theorem check_remote_transferStep (p : Params) (s : S) (hc : p.check_mode = true) :
    (transferStep p s).remote = s.remote := by
  simp only [transferStep]
  split
  · simp [remote_src_is_valid, check_remote_upload_blob _ _ hc, apply_ite S.remote]
  · split
    · simp [check_dest_is_valid _ _ hc, check_remote_download_blob _ _ hc, apply_ite S.remote]
    · rfl

theorem check_fs_transferStep (p : Params) (s : S) (hc : p.check_mode = true) :
    (transferStep p s).fs = s.fs := by
  simp only [transferStep]
  split
  · simp [fs_src_is_valid, check_fs_upload_blob _ _ hc, apply_ite S.fs]
  · split
    · simp [check_dest_is_valid _ _ hc, check_fs_download_blob _ _ hc, apply_ite S.fs]
    · rfl

theorem check_remote_blobTagStep (p : Params) (s : S) (hc : p.check_mode = true) :
    (blobTagStep p s).remote = s.remote := by
  simp only [blobTagStep]
  split
  · rw [check_remote_update_blob_tags _ _ _ hc]
  · rfl

theorem check_fs_blobTagStep (p : Params) (s : S) (hc : p.check_mode = true) :
    (blobTagStep p s).fs = s.fs := by
  simp only [blobTagStep]
  split
  · rw [check_fs_update_blob_tags _ _ _ hc]
  · rfl

theorem check_remote_settingsStep (p : Params) (s : S) (hc : p.check_mode = true) :
    (settingsStep p s).remote = s.remote := by
  simp only [settingsStep]
  split
  · rw [remote_content_differ]
  · split
    · rw [check_remote_update_blob_content_settings _ _ hc, remote_content_differ]
    · rw [remote_content_differ]

theorem check_fs_settingsStep (p : Params) (s : S) (hc : p.check_mode = true) :
    (settingsStep p s).fs = s.fs := by
  simp only [settingsStep]
  split
  · rw [fs_content_differ]
  · split
    · rw [check_fs_update_blob_content_settings _ _ hc, fs_content_differ]
    · rw [fs_content_differ]

theorem check_remote_blobBranch (p : Params) (s : S) (hc : p.check_mode = true) :
    (blobBranch p s).remote = s.remote := by
  simp only [blobBranch]
  split
  · exact check_remote_transferStep p s hc
  · split
    · rw [check_remote_blobTagStep _ _ hc, check_remote_transferStep p s hc]
    · rw [check_remote_settingsStep _ _ hc, check_remote_blobTagStep _ _ hc,
        check_remote_transferStep p s hc]

theorem check_fs_blobBranch (p : Params) (s : S) (hc : p.check_mode = true) :
    (blobBranch p s).fs = s.fs := by
  simp only [blobBranch]
  split
  · exact check_fs_transferStep p s hc
  · split
    · rw [check_fs_blobTagStep _ _ hc, check_fs_transferStep p s hc]
    · rw [check_fs_settingsStep _ _ hc, check_fs_blobTagStep _ _ hc,
        check_fs_transferStep p s hc]

theorem check_remote_containerTagStep (p : Params) (s : S) (hc : p.check_mode = true) :
    (containerTagStep p s).remote = s.remote := by
  simp only [containerTagStep]
  split
  · rw [check_remote_update_container_tags _ _ _ hc]
  · rfl

theorem check_fs_containerTagStep (p : Params) (s : S) (hc : p.check_mode = true) :
    (containerTagStep p s).fs = s.fs := by
  simp only [containerTagStep]
  split
  · rw [check_fs_update_container_tags _ _ _ hc]
  · rfl

theorem check_remote_presentBranch (p : Params) (s : S) (hc : p.check_mode = true) :
    (presentBranch p s).remote = s.remote := by
  have hmid : ∀ t : S, t.remote = s.remote →
      (if t.failed.isSome = true then t
        else if strTruthy p.blob = true then blobBranch p t else t).remote = s.remote := by
    intro t ht
    split
    · exact ht
    · split
      · rw [check_remote_blobBranch _ _ hc, ht]
      · exact ht
  simp only [presentBranch]
  split
  · exact hmid _ (check_remote_create_container _ _ hc)
  · split
    · exact hmid _ (check_remote_containerTagStep _ _ hc)
    · exact hmid _ rfl

theorem check_fs_presentBranch (p : Params) (s : S) (hc : p.check_mode = true) :
    (presentBranch p s).fs = s.fs := by
  have hmid : ∀ t : S, t.fs = s.fs →
      (if t.failed.isSome = true then t
        else if strTruthy p.blob = true then blobBranch p t else t).fs = s.fs := by
    intro t ht
    split
    · exact ht
    · split
      · rw [check_fs_blobBranch _ _ hc, ht]
      · exact ht
  simp only [presentBranch]
  split
  · exact hmid _ (check_fs_create_container _ _ hc)
  · split
    · exact hmid _ (check_fs_containerTagStep _ _ hc)
    · exact hmid _ rfl

theorem check_remote_absentBranch (p : Params) (s : S) (hc : p.check_mode = true) :
    (absentBranch p s).remote = s.remote := by
  simp only [absentBranch]
  split
  · split
    · split
      · rw [check_remote_delete_container _ _ hc]; rfl
      · rfl
    · rw [check_remote_delete_container _ _ hc]; rfl
  · split
    · rw [check_remote_delete_blob _ _ hc]
    · rfl

theorem check_fs_absentBranch (p : Params) (s : S) (hc : p.check_mode = true) :
    (absentBranch p s).fs = s.fs := by
  simp only [absentBranch]
  split
  · split
    · split
      · rw [check_fs_delete_container _ _ hc]; rfl
      · rfl
    · rw [check_fs_delete_container _ _ hc]; rfl
  · split
    · rw [check_fs_delete_blob _ _ hc]
    · rfl

theorem check_remote_exec_module (p : Params) (s : S) (hc : p.check_mode = true) :
    (exec_module p s).remote = s.remote := by
  simp only [exec_module]
  split
  · rfl
  · split
    · rw [check_remote_presentBranch _ _ hc]
      split <;> simp [remote_get_blob, remote_get_container]
    · split
      · rw [check_remote_absentBranch _ _ hc]
        split <;> simp [remote_get_blob, remote_get_container]
      · split <;> simp [remote_get_blob, remote_get_container]

theorem check_fs_exec_module (p : Params) (s : S) (hc : p.check_mode = true) :
    (exec_module p s).fs = s.fs := by
  simp only [exec_module]
  split
  · rfl
  · split
    · rw [check_fs_presentBranch _ _ hc]
      split <;> simp [fs_get_blob, fs_get_container]
    · split
      · rw [check_fs_absentBranch _ _ hc]
        split <;> simp [fs_get_blob, fs_get_container]
      · split <;> simp [fs_get_blob, fs_get_container]

/-! ### Symbolic evaluation of the prelude of `exec_module` -/

theorem get_blob_falsy (p : Params) (s : S) (h : strTruthy p.blob = false) :
    get_blob p s = (BlobObj.empty, s) := by
  unfold get_blob; rw [h]; rfl

/-- After the name check and the lookups, an invocation that does not target
a blob dispatches on the desired state from this prelude state. -/
theorem exec_module_prelude_noblob (p : Params) (env : Env)
    (hname : matchNamePattern p.container = true)
    (hblob : strTruthy p.blob = false) :
    exec_module p (initS p env) =
      (let s : S :=
        { remote := env.remote, fs := env.fs,
          calls := ["get_container_properties " ++ p.container], failed := none,
          results := { changed := false, actions := [],
                       container := ContainerObj.empty, blob := BlobObj.empty,
                       check_mode := p.check_mode },
          container_obj := containerFacts p (env.remote.findContainer p.container),
          blob_obj := BlobObj.empty, dest := p.dest }
       if p.state = "present" then presentBranch p s
       else if p.state = "absent" then absentBranch p s else s) := by
  have hne := isEmpty_false_of_match _ hname
  have hgb : ∀ t : S, get_blob p t = (BlobObj.empty, t) :=
    fun t => get_blob_falsy p t hblob
  unfold exec_module initS get_container Results.init
  rw [hname]
  simp [hne, hgb]

/-- After the name check and the lookups, an invocation targeting blob `b`
dispatches on the desired state from this prelude state. -/
theorem exec_module_prelude_blob (p : Params) (env : Env) (b : String)
    (hname : matchNamePattern p.container = true)
    (hb : p.blob = some b) (hbt : b.isEmpty = false) :
    exec_module p (initS p env) =
      (let s : S :=
        { remote := env.remote, fs := env.fs,
          calls := ["get_container_properties " ++ p.container,
                    "get_blob_properties " ++ p.container ++ ":" ++ b],
          failed := none,
          results := { changed := false, actions := [],
                       container := ContainerObj.empty, blob := BlobObj.empty,
                       check_mode := p.check_mode },
          container_obj := containerFacts p (env.remote.findContainer p.container),
          blob_obj := blobFacts b (env.remote.findBlob p.container b),
          dest := p.dest }
       if p.state = "present" then presentBranch p s
       else if p.state = "absent" then absentBranch p s else s) := by
  have hne := isEmpty_false_of_match _ hname
  unfold exec_module initS get_container get_blob Results.init
  rw [hname]
  simp [hne, hb, strTruthy, hbt]

/-! ### Staged analysis of a reconciliation against an absent blob -/

theorem blobframe_create_container (p : Params) (s : S) (c b : String) :
    (create_container p s).failed = s.failed
    ∧ (create_container p s).blob_obj = s.blob_obj
    ∧ (create_container p s).remote.findBlob c b = s.remote.findBlob c b := by
  unfold create_container
  dsimp only
  split
  · refine ⟨?_, ?_, ?_⟩
    · rw [failed_get_container]
    · rw [blob_obj_get_container]
    · rw [remote_get_container]; exact findBlob_setContainer _ _ _ _ _
  · exact ⟨by rw [failed_get_container], by rw [blob_obj_get_container],
      by rw [remote_get_container]⟩

/-- Without a truthy src, the transfer step either fails or leaves the blob
fact dictionary, the remote store and the (absent) failure untouched. -/
theorem transferStep_nosrc (p : Params) (s : S)
    (hsrc : strTruthy p.src = false) (hsf : s.failed = none) :
    (transferStep p s).failed.isSome = true
    ∨ ((transferStep p s).blob_obj = s.blob_obj
        ∧ (transferStep p s).remote = s.remote
        ∧ (transferStep p s).failed = none) := by
  unfold transferStep
  simp only [hsrc, Bool.false_eq_true, if_false]
  split
  · -- dest branch
    split
    · left; assumption
    · split
      · -- download
        rcases failed_download_blob p (dest_is_valid p s).2 with hf | hf
        · right
          refine ⟨?_, ?_, ?_⟩
          · rw [blob_obj_download_blob, blob_obj_dest_is_valid]
          · rw [remote_download_blob, remote_dest_is_valid]
          · rw [hf]
            have h2 : ((dest_is_valid p s).2.failed).isSome = false := by
              simp only [Bool.not_eq_true] at *
              assumption
            exact Option.not_isSome_iff_eq_none.mp (by simp [h2])
        · left; exact hf
      · right
        refine ⟨blob_obj_dest_is_valid p s, remote_dest_is_valid p s, ?_⟩
        have h2 : ((dest_is_valid p s).2.failed).isSome = false := by
          simp only [Bool.not_eq_true] at *
          assumption
        exact Option.not_isSome_iff_eq_none.mp (by simp [h2])
  · right; exact ⟨rfl, rfl, hsf⟩

/-- Against an absent remote blob, the tag step either fails (the metadata
call on the missing blob) or leaves the `content_settings` key absent. -/
theorem blobTagStep_absent (p : Params) (s : S) (b : String)
    (hb : p.blob = some b) (hbt : b.isEmpty = false)
    (hnb : s.remote.findBlob p.container b = none)
    (hcs : s.blob_obj.content_settings = none)
    (hsf : s.failed = none) :
    (blobTagStep p s).failed.isSome = true
    ∨ ((blobTagStep p s).blob_obj.content_settings = none
        ∧ (blobTagStep p s).failed = none) := by
  unfold blobTagStep
  dsimp only
  split
  · unfold update_blob_tags
    dsimp only
    split
    · simp only [hb, Option.getD_some, hnb]
      left; rfl
    · right
      constructor
      · simp [get_blob, hb, strTruthy, hbt, Option.getD_some, hnb, blobFacts, BlobObj.empty]
      · simp [get_blob, hb, strTruthy, hbt, Option.getD_some, hnb, blobFacts, hsf]
  · right; exact ⟨by simpa using hcs, hsf⟩

/-- With a truthy content field and no `content_settings` key in the blob
fact dictionary, the settings step raises the `KeyError`. -/
theorem settingsStep_keyerror (p : Params) (s : S)
    (hct : anyContentTruthy p = true)
    (hcs : s.blob_obj.content_settings = none) :
    (settingsStep p s).failed.isSome = true := by
  unfold settingsStep blob_content_settings_differ
  dsimp only
  simp [hct, hcs, fail]

/-- Against an absent remote blob with a truthy content field and no src,
the blob branch always ends in a failure. -/
theorem blobBranch_keyerror (p : Params) (s : S) (b : String)
    (hb : p.blob = some b) (hbt : b.isEmpty = false)
    (hsrc : strTruthy p.src = false)
    (hct : anyContentTruthy p = true)
    (hnb : s.remote.findBlob p.container b = none)
    (hcs : s.blob_obj.content_settings = none)
    (hsf : s.failed = none) :
    (blobBranch p s).failed.isSome = true := by
  unfold blobBranch
  dsimp only
  rcases transferStep_nosrc p s hsrc hsf with hfail | ⟨hbo, hrm, hfl⟩
  · rw [if_pos hfail]; exact hfail
  · rw [if_neg (by simp [hfl])]
    rcases blobTagStep_absent p (transferStep p s) b hb hbt
        (by rw [hrm]; exact hnb) (by rw [hbo]; exact hcs) hfl with h2 | ⟨h2cs, h2f⟩
    · rw [if_pos h2]; exact h2
    · rw [if_neg (by simp [h2f])]
      exact settingsStep_keyerror p _ hct h2cs

/-! ### Claim theorems -/

/-- C9: across every invocation, the final result record has `changed = true`
exactly when its actions list is non-empty (every mutating step sets
`changed` and appends one action together), and the record starts as
`changed = false` with an empty actions list. -/
theorem changed_iff_actions_nonempty (p : Params) (env : Env) :
    ((exec_module p (initS p env)).results.changed = true
      ↔ (exec_module p (initS p env)).results.actions ≠ [])
    ∧ (initS p env).results.changed = false
    ∧ (initS p env).results.actions = [] :=
  ⟨resInv_exec_module p (initS p env) resInv_init, rfl, rfl⟩

/-- C2: for `state=absent` with an existing container and no blob targeted:
when the container holds at least one blob and force is unset, no delete is
issued — `changed` stays false, no actions, remote and filesystem untouched;
when force is set or the container holds no blobs, the container is deleted,
`changed` becomes true and the action `deleted container <name>` is
appended.  A container is never deleted while it contains blobs unless
force is set. -/
theorem absent_container_reconciliation (p : Params) (env : Env) (cr : ContainerRec)
    (hname : matchNamePattern p.container = true)
    (hstate : p.state = "absent")
    (hblob : strTruthy p.blob = false)
    (hcont : env.remote.findContainer p.container = some cr)
    (hcheck : p.check_mode = false) :
    (0 < env.remote.blobsIn p.container → p.force = false →
        (exec_module p (initS p env)).failed = none
          ∧ (exec_module p (initS p env)).results.changed = false
          ∧ (exec_module p (initS p env)).results.actions = []
          ∧ (exec_module p (initS p env)).remote = env.remote
          ∧ (exec_module p (initS p env)).fs = env.fs)
    ∧ ((p.force = true ∨ env.remote.blobsIn p.container = 0) →
        (exec_module p (initS p env)).failed = none
          ∧ (exec_module p (initS p env)).results.changed = true
          ∧ (exec_module p (initS p env)).results.actions
              = ["deleted container " ++ p.container]
          ∧ (exec_module p (initS p env)).remote.findContainer p.container = none) := by
  rw [exec_module_prelude_noblob p env hname hblob]
  dsimp only
  rw [hstate]
  refine ⟨fun hB hf => ?_, fun hbf => ?_⟩
  · simp [absentBranch, container_has_blobs, containerFacts, hcont,
      ContainerObj.truthy, hblob, hB, hf]
  · rcases hbf with hf | hz
    · by_cases hB : 0 < env.remote.blobsIn p.container <;>
        simp [absentBranch, container_has_blobs, containerFacts, hcont,
          ContainerObj.truthy, hblob, hB, hf, hcheck, delete_container,
          findContainer_remove]
    · simp [absentBranch, container_has_blobs, containerFacts, hcont,
        ContainerObj.truthy, hblob, hz, hcheck, delete_container,
        findContainer_remove]

/-- C2 witness: the theorem applied to container `con` — refusing while it
holds blob `b` without force, and deleting once the container is empty. -/
theorem absent_container_reconciliation_witness :
    ((exec_module pAbs (initS pAbs { remote := remoteConB, fs := emptyFS })).results.changed
        = false
      ∧ (exec_module pAbs (initS pAbs { remote := remoteConB, fs := emptyFS })).results.actions
        = [])
    ∧ ((exec_module pAbs (initS pAbs { remote := remoteConOnly, fs := emptyFS })).results.changed
        = true
      ∧ (exec_module pAbs (initS pAbs { remote := remoteConOnly, fs := emptyFS })).results.actions
        = ["deleted container con"]) := by
  have h1 := (absent_container_reconciliation pAbs
      { remote := remoteConB, fs := emptyFS } { tags := [], last_modified := "t1" }
      (by decide) rfl rfl rfl rfl).1 (by decide) rfl
  have h2 := (absent_container_reconciliation pAbs
      { remote := remoteConOnly, fs := emptyFS } { tags := [], last_modified := "t1" }
      (by decide) rfl rfl rfl rfl).2 (Or.inr rfl)
  exact ⟨⟨h1.2.1, h1.2.2.1⟩, ⟨h2.2.1, h2.2.2.1⟩⟩

/-- C8: with `state=present` and an absent container, the container is
created, `changed` becomes true and the action `created container <name>` is
appended; the declared tags become container metadata only when no blob is
targeted — when a blob is targeted the container is created with no
metadata and the tags end up on the uploaded blob instead. -/
theorem create_container_scoped_tags (p : Params) (env : Env)
    (hname : matchNamePattern p.container = true)
    (hstate : p.state = "present")
    (hcont : env.remote.findContainer p.container = none)
    (hcheck : p.check_mode = false) :
    (strTruthy p.blob = false →
        (exec_module p (initS p env)).failed = none
          ∧ (exec_module p (initS p env)).results.changed = true
          ∧ (exec_module p (initS p env)).results.actions
              = ["created container " ++ p.container]
          ∧ (exec_module p (initS p env)).remote.findContainer p.container
              = some { tags := p.tags.getD [], last_modified := storeStamp })
    ∧ (∀ b srcPath, p.blob = some b → b.isEmpty = false →
        p.src = some srcPath → srcPath.isEmpty = false →
        env.fs.files.contains srcPath = true →
        env.fs.readable.contains srcPath = true →
        env.remote.findBlob p.container b = none →
        (exec_module p (initS p env)).failed = none
          ∧ (exec_module p (initS p env)).results.changed = true
          ∧ (exec_module p (initS p env)).results.actions
              = ["created container " ++ p.container,
                 "created blob " ++ b ++ " from " ++ srcPath]
          ∧ (exec_module p (initS p env)).remote.findContainer p.container
              = some { tags := [], last_modified := storeStamp }
          ∧ ((exec_module p (initS p env)).remote.findBlob p.container b).map
              (fun r => r.tags) = some (p.tags.getD [])) := by
  have hne := isEmpty_false_of_match _ hname
  constructor
  · intro hblob
    rw [exec_module_prelude_noblob p env hname hblob]
    dsimp only
    rw [hstate]
    have htags : (if tagsTruthy p.tags then p.tags else none).getD []
        = p.tags.getD [] := by
      rcases hpt : p.tags with _ | tl
      · simp [tagsTruthy]
      · rcases tl with _ | ⟨hd0, tl0⟩ <;> simp [tagsTruthy]
    simp [presentBranch, containerFacts, ContainerObj.empty, hcont, ContainerObj.truthy,
      create_container, hblob, hcheck, get_container, hne, findContainer_set_self, htags]
  · intro b srcPath hb hbt hsrc hsne hfile hread hnob
    rw [exec_module_prelude_blob p env b hname hb hbt]
    dsimp only
    rw [hstate]
    have hut : ∀ purge, (update_tags (some (p.tags.getD [])) p.tags purge).1 = false :=
      fun purge => update_tags_self (p.tags.getD []) p.tags purge rfl
    have hfile2 : srcPath ∈ env.fs.files := by simpa using hfile
    have hread2 : srcPath ∈ env.fs.readable := by simpa using hread
    by_cases hct : anyContentTruthy p = true
    · simp [presentBranch, containerFacts, hcont, ContainerObj.truthy, create_container,
        hb, strTruthy, hbt, hcheck, get_container, hne, findContainer_set_self,
        blobBranch, transferStep, src_is_valid, hsrc, hsne, hfile2, hread2,
        upload_blob, get_blob, blobFacts, hnob, findBlob_setContainer,
        findBlob_set_self, findContainer_setBlob, findContainer_set_self,
        BlobObj.truthy, blobTagStep, hut, settingsStep,
        blob_content_settings_differ, hct, ContainerObj.empty, BlobObj.empty]
    · simp [presentBranch, containerFacts, hcont, ContainerObj.truthy, create_container,
        hb, strTruthy, hbt, hcheck, get_container, hne, findContainer_set_self,
        blobBranch, transferStep, src_is_valid, hsrc, hsne, hfile2, hread2,
        upload_blob, get_blob, blobFacts, hnob, findBlob_setContainer,
        findBlob_set_self, findContainer_setBlob, findContainer_set_self,
        BlobObj.truthy, blobTagStep, hut, settingsStep,
        blob_content_settings_differ, hct, ContainerObj.empty, BlobObj.empty]

theorem presentBranch_keyerror (p : Params) (s : S) (b : String)
    (hb : p.blob = some b) (hbt : b.isEmpty = false)
    (hsrcf : strTruthy p.src = false)
    (hct : anyContentTruthy p = true)
    (hnb : s.remote.findBlob p.container b = none)
    (hcs : s.blob_obj.content_settings = none)
    (hsf : s.failed = none) :
    (presentBranch p s).failed.isSome = true := by
  unfold presentBranch
  dsimp only
  have hblobt : strTruthy p.blob = true := by rw [hb]; simp [strTruthy, hbt]
  split
  · rcases blobframe_create_container p s p.container b with ⟨hfl, hbo, hfb⟩
    rw [hsf] at hfl
    rw [if_neg (by simp [hfl])]
    refine blobBranch_keyerror p _ b hb hbt hsrcf hct ?_ ?_ ?_
    · rw [hfb]; exact hnb
    · rw [hbo]; exact hcs
    · exact hfl
  · split
    · rename_i hcond
      rw [hblobt] at hcond
      simp at hcond
    · rw [if_neg (by simp [hsf])]
      exact blobBranch_keyerror p s b hb hbt hsrcf hct hnb hcs hsf

/-- C6 (amended): every validation error fails the invocation with a
descriptive message.  The container-name-pattern error and the mutually
exclusive src/dest error abort before any remote call.  A missing or
unreadable source file, however, is only detected after the initial
read-only container/blob lookups: if the container was present, nothing has
been mutated by then; but if the container was absent, `create_container`
has already run (a state-mutating remote call) before the source validation
fails, and that creation persists. -/
theorem validation_error_handling :
    (∀ (p : Params) (env : Env), matchNamePattern p.container = false →
        (runModule p env).failed.isSome = true
          ∧ (runModule p env).calls = []
          ∧ (runModule p env).remote = env.remote
          ∧ (runModule p env).fs = env.fs)
    ∧ (∀ (p : Params) (env : Env), p.src.isSome = true → p.dest.isSome = true →
        (runModule p env).failed.isSome = true
          ∧ (runModule p env).calls = []
          ∧ (runModule p env).remote = env.remote
          ∧ (runModule p env).fs = env.fs)
    ∧ (∀ (p : Params) (env : Env) (b srcPath : String) (cr : ContainerRec),
        matchNamePattern p.container = true → p.state = "present" →
        p.blob = some b → b.isEmpty = false →
        p.src = some srcPath → srcPath.isEmpty = false → p.dest = none →
        env.fs.files.contains srcPath = false →
        env.remote.findContainer p.container = some cr →
        (runModule p env).failed = some "The source path must be a file."
          ∧ (runModule p env).calls
              = ["get_container_properties " ++ p.container,
                 "get_blob_properties " ++ p.container ++ ":" ++ b]
          ∧ (runModule p env).remote = env.remote
          ∧ (runModule p env).fs = env.fs)
    ∧ (∀ (p : Params) (env : Env) (b srcPath : String) (cr : ContainerRec),
        matchNamePattern p.container = true → p.state = "present" →
        p.blob = some b → b.isEmpty = false →
        p.src = some srcPath → srcPath.isEmpty = false → p.dest = none →
        env.fs.files.contains srcPath = true →
        env.fs.readable.contains srcPath = false →
        env.remote.findContainer p.container = some cr →
        (runModule p env).failed
            = some ("Failed to access " ++ srcPath
                ++ ". Make sure the file exists and that you have read access.")
          ∧ (runModule p env).remote = env.remote
          ∧ (runModule p env).fs = env.fs)
    ∧ (∀ (p : Params) (env : Env) (b srcPath : String),
        matchNamePattern p.container = true → p.state = "present" →
        p.blob = some b → b.isEmpty = false →
        p.src = some srcPath → srcPath.isEmpty = false → p.dest = none →
        env.fs.files.contains srcPath = false →
        env.remote.findContainer p.container = none →
        p.check_mode = false →
        (runModule p env).failed = some "The source path must be a file."
          ∧ (runModule p env).results.actions
              = ["created container " ++ p.container]
          ∧ (runModule p env).remote.findContainer p.container
              = some { tags := [], last_modified := storeStamp }) := by
  refine ⟨?_, ?_, ?_, ?_, ?_⟩
  · intro p env h
    by_cases hmx : (p.src.isSome && p.dest.isSome) = true <;>
      simp [runModule, hmx, exec_module, fail, initS, h]
  · intro p env h1 h2
    simp [runModule, h1, h2, fail, initS]
  · intro p env b srcPath cr hname hstate hb hbt hsrc hsne hdest hnf hcont
    have hmx : (p.src.isSome && p.dest.isSome) = false := by simp [hsrc, hdest]
    have hnf2 : ¬ srcPath ∈ env.fs.files := by simpa using hnf
    unfold runModule
    rw [hmx]
    simp only [Bool.false_eq_true, if_false]
    rw [exec_module_prelude_blob p env b hname hb hbt]
    dsimp only
    rw [hstate]
    simp [presentBranch, containerFacts, hcont, ContainerObj.truthy, strTruthy, hb, hbt,
      blobBranch, transferStep, src_is_valid, hsrc, hsne, hnf2, fail]
  · intro p env b srcPath cr hname hstate hb hbt hsrc hsne hdest hf hr hcont
    have hmx : (p.src.isSome && p.dest.isSome) = false := by simp [hsrc, hdest]
    have hf2 : srcPath ∈ env.fs.files := by simpa using hf
    have hr2 : ¬ srcPath ∈ env.fs.readable := by simpa using hr
    unfold runModule
    rw [hmx]
    simp only [Bool.false_eq_true, if_false]
    rw [exec_module_prelude_blob p env b hname hb hbt]
    dsimp only
    rw [hstate]
    simp [presentBranch, containerFacts, hcont, ContainerObj.truthy, strTruthy, hb, hbt,
      blobBranch, transferStep, src_is_valid, hsrc, hsne, hf2, hr2, fail]
  · intro p env b srcPath hname hstate hb hbt hsrc hsne hdest hnf hcont hcheck
    have hne := isEmpty_false_of_match _ hname
    have hmx : (p.src.isSome && p.dest.isSome) = false := by simp [hsrc, hdest]
    have hnf2 : ¬ srcPath ∈ env.fs.files := by simpa using hnf
    unfold runModule
    rw [hmx]
    simp only [Bool.false_eq_true, if_false]
    rw [exec_module_prelude_blob p env b hname hb hbt]
    dsimp only
    rw [hstate]
    simp [presentBranch, containerFacts, hcont, ContainerObj.truthy, ContainerObj.empty,
      strTruthy, hb, hbt, create_container, hcheck, get_container, hne,
      findContainer_set_self, blobBranch, transferStep, src_is_valid, hsrc, hsne,
      hnf2, fail]

/-- C6 witness: the amended claim applied to a bad container name, to a
src/dest conflict, and to a missing source file — once with the container
present (nothing mutated) and once with it absent (container already
created). -/
theorem validation_error_handling_witness :
    ((runModule { baseParams with container := "-bad" } envConOnly).failed.isSome = true
      ∧ (runModule { baseParams with container := "-bad" } envConOnly).calls = [])
    ∧ ((runModule { baseParams with src := some "/a.txt", dest := some "/b.txt" } envConOnly).failed.isSome
          = true
      ∧ (runModule { baseParams with src := some "/a.txt", dest := some "/b.txt" } envConOnly).calls
          = [])
    ∧ (runModule pSrcMissing envConOnly).failed = some "The source path must be a file."
    ∧ ((runModule pSrcMissing envEmptyAll).failed = some "The source path must be a file."
      ∧ (runModule pSrcMissing envEmptyAll).results.actions = ["created container con"]) := by
  have h1 := validation_error_handling.1 { baseParams with container := "-bad" }
    envConOnly (by decide)
  have h2 := validation_error_handling.2.1
    { baseParams with src := some "/a.txt", dest := some "/b.txt" } envConOnly rfl rfl
  have h3 := validation_error_handling.2.2.1 pSrcMissing envConOnly "b" "/no/file.txt"
    { tags := [], last_modified := "t1" } (by decide) rfl rfl (by decide) rfl (by decide)
    rfl rfl rfl
  have h4 := validation_error_handling.2.2.2.2 pSrcMissing envEmptyAll "b" "/no/file.txt"
    (by decide) rfl rfl (by decide) rfl (by decide) rfl rfl rfl rfl
  exact ⟨⟨h1.1, h1.2.1⟩, ⟨h2.1, h2.2.1⟩, h3.1, h4.1, h4.2.1⟩

/-- C6 counterexample: the claim that validation errors abort "before any
remote call is made" is false for source-file validation — the invocation
with a missing source file fails with the right message, but the read-only
remote lookups for the container and blob were already issued. -/
theorem src_validation_after_remote_reads :
    (runModule pSrcMissing envConOnly).failed = some "The source path must be a file."
      ∧ (runModule pSrcMissing envConOnly).calls
          = ["get_container_properties con", "get_blob_properties con:b"]
      ∧ ¬ (runModule pSrcMissing envConOnly).calls = [] := by
  refine ⟨rfl, rfl, ?_⟩
  intro h
  have h2 : (runModule pSrcMissing envConOnly).calls
      = ["get_container_properties con", "get_blob_properties con:b"] := rfl
  rw [h] at h2
  exact absurd h2 (by simp)

/-- C4: the code is wrong where the claim expects a missing destination
directory to be created for a trailing-slash dest path: that branch calls
the misspelled `os.makddirs` (line 486), which raises `AttributeError`
(uncaught by `except IOError`), aborting instead of creating the directory;
end-to-end the invocation fails with that error. -/
theorem makddirs_attribute_error :
    basename "/data/newdir/" = ""
      ∧ emptyFS.dirs.contains "/data/newdir/" = false
      ∧ (dest_is_valid pDestDir (initS pDestDir envConOnly)).1 = false
      ∧ (dest_is_valid pDestDir (initS pDestDir envConOnly)).2.failed
          = some "AttributeError: module os has no attribute makddirs"
      ∧ (runModule pDestDir envConOnly).failed
          = some "AttributeError: module os has no attribute makddirs" :=
  ⟨rfl, rfl, rfl, rfl, rfl⟩

/-- C5: the tag-diff operation — with purge the result equals the declared
mapping exactly; without purge the result is the current mapping merged with
the declared one (declared values win on collision, current-only keys
survive, so the result contains the declared mapping); the returned flag is
false exactly when the merged mapping coincides with the current one; and
in `exec_module` the metadata update call (its action) is issued iff that
flag is true — identically for containers and blobs. -/
theorem update_tags_semantics :
    (∀ C D : Tags, (update_tags (some C) (some D) true).2 = D)
    ∧ (∀ (C D : Tags) (k : String),
        tagLookup ((update_tags (some C) (some D) false).2) k
          = (tagLookup D k).or (tagLookup C k))
    ∧ (∀ (C D : Tags) (purge : Bool),
        ((update_tags (some C) (some D) purge).1 = false
          ↔ ∀ k, tagLookup ((update_tags (some C) (some D) purge).2) k = tagLookup C k))
    ∧ (∀ (p : Params) (env : Env) (cr : ContainerRec),
        matchNamePattern p.container = true → p.state = "present" →
        strTruthy p.blob = false →
        env.remote.findContainer p.container = some cr →
        p.check_mode = false →
        (exec_module p (initS p env)).results.actions
          = (if (update_tags (some cr.tags) p.tags p.purge_tags).1 = true
             then ["updated container " ++ p.container ++ " tags."] else []))
    ∧ (∀ (p : Params) (env : Env) (b : String) (cr : ContainerRec) (br : BlobRec),
        matchNamePattern p.container = true → p.state = "present" →
        p.blob = some b → b.isEmpty = false →
        p.src = none → p.dest = none →
        env.remote.findContainer p.container = some cr →
        env.remote.findBlob p.container b = some br →
        anyContentTruthy p = false →
        p.check_mode = false →
        (exec_module p (initS p env)).results.actions
          = (if (update_tags (some br.tags) p.tags p.purge_tags).1 = true
             then ["updated blob " ++ p.container ++ ":" ++ b ++ " tags."] else [])) := by
  refine ⟨fun C D => rfl, ?_, ?_, ?_, ?_⟩
  · intro C D k
    have h : (update_tags (some C) (some D) false).2 = mergeTags C D := rfl
    rw [h, mergeTags_lookup]
  · intro C D purge
    have h1 : (update_tags (some C) (some D) purge).1
        = !(dictBeq (update_tags (some C) (some D) purge).2 C) := rfl
    rw [h1]
    constructor
    · intro h k
      have h2 : dictBeq (update_tags (some C) (some D) purge).2 C = true := by
        cases hd : dictBeq (update_tags (some C) (some D) purge).2 C
        · rw [hd] at h; simp at h
        · rfl
      exact (dictBeq_iff _ _).mp h2 k
    · intro h
      have h2 : dictBeq (update_tags (some C) (some D) purge).2 C = true :=
        (dictBeq_iff _ _).mpr h
      rw [h2]; rfl
  · intro p env cr hname hstate hblob hcont hcheck
    rw [exec_module_prelude_noblob p env hname hblob]
    dsimp only
    rw [hstate]
    by_cases hf : (update_tags (some cr.tags) p.tags p.purge_tags).1 = true
    · simp [presentBranch, containerTagStep, containerFacts, hcont, ContainerObj.truthy,
        hblob, hf, update_container_tags, hcheck, get_container,
        isEmpty_false_of_match _ hname, findContainer_set_self, blobBranch]
    · simp [presentBranch, containerTagStep, containerFacts, hcont, ContainerObj.truthy,
        hblob, hf]
  · intro p env b cr br hname hstate hb hbt hsrc hdest hcont hbr hct hcheck
    rw [exec_module_prelude_blob p env b hname hb hbt]
    dsimp only
    rw [hstate]
    by_cases hf : (update_tags (some br.tags) p.tags p.purge_tags).1 = true
    · simp [presentBranch, containerFacts, hcont, ContainerObj.truthy, strTruthy, hb, hbt,
        blobBranch, transferStep, hsrc, hdest, blobFacts, hbr, blobTagStep, hf,
        update_blob_tags, hcheck, get_blob, findBlob_set_self, settingsStep,
        blob_content_settings_differ, hct]
    · simp [presentBranch, containerFacts, hcont, ContainerObj.truthy, strTruthy, hb, hbt,
        blobBranch, transferStep, hsrc, hdest, blobFacts, hbr, blobTagStep, hf,
        settingsStep, blob_content_settings_differ, hct]

/-- C5 witness: concrete purge / merge / diff behaviour, and the recorded
metadata-update actions for container `con` and blob `b`. -/
theorem update_tags_semantics_witness :
    (update_tags (some [("a", "1"), ("b", "2")]) (some [("b", "3"), ("c", "4")]) true).2
        = [("b", "3"), ("c", "4")]
      ∧ tagLookup ((update_tags (some [("a", "1"), ("b", "2")])
            (some [("b", "3"), ("c", "4")]) false).2) "a" = some "1"
      ∧ tagLookup ((update_tags (some [("a", "1"), ("b", "2")])
            (some [("b", "3"), ("c", "4")]) false).2) "b" = some "3"
      ∧ (exec_module pTagUpd (initS pTagUpd { remote := remoteConOnly, fs := emptyFS })).results.actions
          = ["updated container con tags."]
      ∧ (exec_module pBlobTagUpd (initS pBlobTagUpd { remote := remoteConB, fs := emptyFS })).results.actions
          = ["updated blob con:b tags."] := by
  refine ⟨update_tags_semantics.1 [("a", "1"), ("b", "2")] [("b", "3"), ("c", "4")],
    ?_, ?_, ?_, ?_⟩
  · rw [update_tags_semantics.2.1]; rfl
  · rw [update_tags_semantics.2.1]; rfl
  · rw [update_tags_semantics.2.2.2.1 pTagUpd { remote := remoteConOnly, fs := emptyFS }
      { tags := [], last_modified := "t1" } (by decide) rfl rfl rfl rfl]
    rfl
  · rw [update_tags_semantics.2.2.2.2 pBlobTagUpd { remote := remoteConB, fs := emptyFS }
      "b" { tags := [], last_modified := "t1" }
      { tags := [], last_modified := "t1", blob_type := "BlockBlob",
        content_length := 4, content_settings := emptySettings }
      (by decide) rfl rfl (by decide) rfl rfl rfl rfl rfl rfl]
    rfl

/-- C10 (amended): with `state=present`, a targeted blob name absent from
the store, no src path and at least one content-settings field supplied
*with a non-empty (truthy) value*, the content-settings comparison reads the
`content_settings` key of the empty blob fact dictionary (or an earlier
step on the missing blob already failed), so the invocation always ends in
an error rather than a completed reconciliation. -/
theorem absent_blob_settings_error (p : Params) (env : Env) (b : String)
    (hstate : p.state = "present")
    (hb : p.blob = some b) (hbt : b.isEmpty = false)
    (hnob : env.remote.findBlob p.container b = none)
    (hsrc : p.src = none)
    (hct : anyContentTruthy p = true) :
    (exec_module p (initS p env)).failed.isSome = true := by
  have hsrcf : strTruthy p.src = false := by rw [hsrc]; rfl
  by_cases hname : matchNamePattern p.container = true
  · rw [exec_module_prelude_blob p env b hname hb hbt]
    dsimp only
    rw [hstate, if_pos rfl]
    refine presentBranch_keyerror p _ b hb hbt hsrcf hct hnob ?_ rfl
    simp [blobFacts, hnob, BlobObj.empty]
  · unfold exec_module
    dsimp only
    rw [if_pos (by simp [Bool.not_eq_true] at hname; simp [hname])]
    rfl

/-- C10 witness: asking for a `content_type` on absent blob `x` with no src
fails (the unguarded `content_settings` lookup). -/
theorem absent_blob_settings_error_witness :
    (exec_module pAbsentCT (initS pAbsentCT { remote := remoteConOnly, fs := emptyFS })).failed.isSome
      = true :=
  absent_blob_settings_error pAbsentCT { remote := remoteConOnly, fs := emptyFS } "x"
    rfl rfl (by decide) rfl rfl (by decide)

/-- C10 counterexample: the claim as frozen is false.  `content_type` is
*supplied* (as the empty string) for the absent targeted blob `x`, with no
src — the claim's premise holds — yet the falsy guard at line 562 never
reaches the unguarded `content_settings` lookup, and the invocation
completes as a normal reconciliation result (no error, `changed=false`, no
actions). -/
theorem absent_blob_empty_string_completes :
    pAbsentEmptyCT.state = "present"
      ∧ pAbsentEmptyCT.blob = some "x"
      ∧ pAbsentEmptyCT.src = none
      ∧ pAbsentEmptyCT.content_type.isSome = true
      ∧ remoteConOnly.findBlob "con" "x" = none
      ∧ (runModule pAbsentEmptyCT envConOnly).failed = none
      ∧ (runModule pAbsentEmptyCT envConOnly).results.changed = false
      ∧ (runModule pAbsentEmptyCT envConOnly).results.actions = [] := by
  refine ⟨rfl, rfl, rfl, rfl, rfl, ?_, ?_, ?_⟩ <;> rfl

/-- C1 (amended): with `state=present`, a targeted existing blob and no file
transfer, the content-settings update is performed exactly when at least one
of the six content fields is supplied *with a non-empty value* (Python
truthiness, line 562) AND the six-field record built from the supplied
values (unsupplied fields as null) differs from the blob's current
content-settings record; when performed, all six fields are submitted
together, unsupplied fields as null (full replace — it can clear
previously-set fields); zero truthy content fields never trigger an update
even when the current settings are non-null. -/
theorem content_settings_update_iff (p : Params) (env : Env) (b : String)
    (cr : ContainerRec) (br : BlobRec)
    (hname : matchNamePattern p.container = true)
    (hstate : p.state = "present")
    (hb : p.blob = some b) (hbt : b.isEmpty = false)
    (hsrc : p.src = none) (hdest : p.dest = none)
    (hcont : env.remote.findContainer p.container = some cr)
    (hbr : env.remote.findBlob p.container b = some br)
    (hT : (update_tags (some br.tags) p.tags p.purge_tags).1 = false)
    (hcheck : p.check_mode = false) :
    (exec_module p (initS p env)).failed = none
    ∧ (exec_module p (initS p env)).results.actions
        = (if anyContentTruthy p = true ∧ ¬(br.content_settings = mkContentSettings p)
           then ["updated blob " ++ p.container ++ ":" ++ b ++ " content settings."]
           else [])
    ∧ ((exec_module p (initS p env)).results.changed = true
        ↔ (anyContentTruthy p = true ∧ ¬(br.content_settings = mkContentSettings p)))
    ∧ ((anyContentTruthy p = true ∧ ¬(br.content_settings = mkContentSettings p)) →
        ((exec_module p (initS p env)).remote.findBlob p.container b).map
            (fun r => r.content_settings) = some (mkContentSettings p)) := by
  rw [exec_module_prelude_blob p env b hname hb hbt]
  dsimp only
  rw [hstate]
  by_cases hct : anyContentTruthy p = true
  · by_cases heq : br.content_settings = mkContentSettings p
    · simp [presentBranch, containerFacts, hcont, ContainerObj.truthy, strTruthy, hb, hbt,
        blobBranch, transferStep, hsrc, hdest, blobFacts, hbr, blobTagStep, hT,
        settingsStep, blob_content_settings_differ, hct, heq]
    · simp [presentBranch, containerFacts, hcont, ContainerObj.truthy, strTruthy, hb, hbt,
        blobBranch, transferStep, hsrc, hdest, blobFacts, hbr, blobTagStep, hT,
        settingsStep, blob_content_settings_differ, hct, heq,
        update_blob_content_settings, hcheck, get_blob, findBlob_set_self]
  · simp [presentBranch, containerFacts, hcont, ContainerObj.truthy, strTruthy, hb, hbt,
      blobBranch, transferStep, hsrc, hdest, blobFacts, hbr, blobTagStep, hT,
      settingsStep, blob_content_settings_differ, hct]

/-- C1 witness: supplying `content_type=image/png` against current
`text/plain` performs the full-replace update. -/
theorem content_settings_update_iff_witness :
    (exec_module pPngCT (initS pPngCT envCT)).results.actions
        = ["updated blob con:b content settings."]
      ∧ ((exec_module pPngCT (initS pPngCT envCT)).remote.findBlob "con" "b").map
          (fun r => r.content_settings)
        = some (mkContentSettings pPngCT) := by
  have h := content_settings_update_iff pPngCT envCT "b"
    { tags := [], last_modified := "t1" }
    { tags := [], last_modified := "t1", blob_type := "BlockBlob",
      content_length := 4,
      content_settings := { emptySettings with content_type := some "text/plain" } }
    (by decide) rfl rfl (by decide) rfl rfl rfl rfl rfl rfl
  refine ⟨?_, h.2.2.2 ⟨rfl, by decide⟩⟩
  rw [h.2.1]
  have him : ("image/png").isEmpty = false := by decide
  simp [pPngCT, baseParams, anyContentTruthy, strTruthy, mkContentSettings, emptySettings,
    him]

/-- C1 counterexample: the claim as stated is false — `content_type` is
*supplied* as the empty string and the six-field record differs from the
blob's current settings, yet the truthiness guard of
`blob_content_settings_differ` (line 562) sees only falsy fields, so the
invocation completes with no content-settings update and `changed=false`. -/
theorem content_settings_empty_string_no_update :
    pEmptyCT.content_type.isSome = true
      ∧ ¬(mkContentSettings pEmptyCT
            = { emptySettings with content_type := some "text/plain" })
      ∧ (runModule pEmptyCT envCT).failed = none
      ∧ (runModule pEmptyCT envCT).results.changed = false
      ∧ (runModule pEmptyCT envCT).results.actions = [] := by
  refine ⟨rfl, by decide, ?_, ?_, ?_⟩ <;> rfl

/-- C3: with `state=present`, a targeted blob and a valid src path: when the
blob already exists and force is unset, no upload happens — `changed` stays
false with no actions (given no tag or content-settings difference) and
remote and filesystem are untouched; when the blob is absent or force is
set, the upload happens, `changed` is true and the action
`created blob <blob> from <src>` is appended. -/
theorem upload_force_semantics (p : Params) (env : Env) (b srcPath : String)
    (cr : ContainerRec)
    (hname : matchNamePattern p.container = true)
    (hstate : p.state = "present")
    (hb : p.blob = some b) (hbt : b.isEmpty = false)
    (hsrc : p.src = some srcPath) (hsne : srcPath.isEmpty = false)
    (hfile : env.fs.files.contains srcPath = true)
    (hread : env.fs.readable.contains srcPath = true)
    (hcont : env.remote.findContainer p.container = some cr)
    (hcheck : p.check_mode = false) :
    (p.force = false → ∀ br : BlobRec, env.remote.findBlob p.container b = some br →
        (update_tags (some br.tags) p.tags p.purge_tags).1 = false →
        (anyContentTruthy p = false ∨ mkContentSettings p = br.content_settings) →
        (exec_module p (initS p env)).failed = none
          ∧ (exec_module p (initS p env)).results.changed = false
          ∧ (exec_module p (initS p env)).results.actions = []
          ∧ (exec_module p (initS p env)).remote = env.remote
          ∧ (exec_module p (initS p env)).fs = env.fs)
    ∧ ((env.remote.findBlob p.container b = none ∨ p.force = true) →
        (exec_module p (initS p env)).failed = none
          ∧ (exec_module p (initS p env)).results.changed = true
          ∧ (exec_module p (initS p env)).results.actions
              = ["created blob " ++ b ++ " from " ++ srcPath]
          ∧ ((exec_module p (initS p env)).remote.findBlob p.container b).map
              (fun r => r.tags) = some (p.tags.getD [])) := by
  have hne := isEmpty_false_of_match _ hname
  have hfile2 : srcPath ∈ env.fs.files := by simpa using hfile
  have hread2 : srcPath ∈ env.fs.readable := by simpa using hread
  have hut : ∀ purge, (update_tags (some (p.tags.getD [])) p.tags purge).1 = false :=
    fun purge => update_tags_self (p.tags.getD []) p.tags purge rfl
  constructor
  · intro hf br hbr hT hS
    rw [exec_module_prelude_blob p env b hname hb hbt]
    dsimp only
    rw [hstate]
    rcases hS with hct | hcs
    · simp [presentBranch, containerFacts, hcont, ContainerObj.truthy, strTruthy, hb, hbt,
        blobBranch, transferStep, src_is_valid, hsrc, hsne, hfile2, hread2, blobFacts, hbr,
        BlobObj.truthy, hf, blobTagStep, hT, settingsStep, blob_content_settings_differ,
        hct]
    · by_cases hct : anyContentTruthy p = true <;>
        simp [presentBranch, containerFacts, hcont, ContainerObj.truthy, strTruthy, hb, hbt,
          blobBranch, transferStep, src_is_valid, hsrc, hsne, hfile2, hread2, blobFacts, hbr,
          BlobObj.truthy, hf, blobTagStep, hT, settingsStep, blob_content_settings_differ,
          hct, hcs]
  · intro hbf
    rw [exec_module_prelude_blob p env b hname hb hbt]
    dsimp only
    rw [hstate]
    rcases hbf with hnob | hf
    · by_cases hct : anyContentTruthy p = true <;>
        simp [presentBranch, containerFacts, hcont, ContainerObj.truthy, strTruthy, hb, hbt,
          blobBranch, transferStep, src_is_valid, hsrc, hsne, hfile2, hread2, blobFacts, hnob,
          BlobObj.truthy, upload_blob, hcheck, get_blob, findBlob_set_self, blobTagStep, hut,
          settingsStep, blob_content_settings_differ, hct, BlobObj.empty]
    · by_cases hct : anyContentTruthy p = true <;>
        simp [presentBranch, containerFacts, hcont, ContainerObj.truthy, strTruthy, hb, hbt,
          blobBranch, transferStep, src_is_valid, hsrc, hsne, hfile2, hread2, blobFacts,
          BlobObj.truthy, hf, upload_blob, hcheck, get_blob, findBlob_set_self, blobTagStep,
          hut, settingsStep, blob_content_settings_differ, hct, BlobObj.empty]

/-- C3 witness: uploading to existing blob `b` without force is a no-op;
uploading absent blob `x` from `/tmp/a.png` records exactly the creation
action. -/
theorem upload_force_semantics_witness :
    ((exec_module pBlobNoForce (initS pBlobNoForce envBlobNoForce)).results.changed = false
      ∧ (exec_module pBlobNoForce (initS pBlobNoForce envBlobNoForce)).results.actions = [])
    ∧ ((exec_module pUx (initS pUx envUx)).results.changed = true
      ∧ (exec_module pUx (initS pUx envUx)).results.actions
          = ["created blob x from /tmp/a.png"]) := by
  have h1 := (upload_force_semantics pBlobNoForce envBlobNoForce "b" "/tmp/a.png"
      { tags := [], last_modified := "t1" } (by decide) rfl rfl (by decide) rfl (by decide)
      rfl rfl rfl rfl).1 rfl
      { tags := [], last_modified := "t1", blob_type := "BlockBlob",
        content_length := 4, content_settings := emptySettings }
      rfl rfl (Or.inl rfl)
  have h2 := (upload_force_semantics pUx envUx "x" "/tmp/a.png"
      { tags := [], last_modified := "t1" } (by decide) rfl rfl (by decide) rfl (by decide)
      rfl rfl rfl rfl).2 (Or.inl rfl)
  exact ⟨⟨h1.2.1, h1.2.2.1⟩, ⟨h2.2.1, h2.2.2.1⟩⟩

/-- C8 witness: creating container `con` alone records just the creation
action and carries the declared tags; creating it while uploading blob `b`
records both creation actions. -/
theorem create_container_scoped_tags_witness :
    ((exec_module baseParams (initS baseParams { remote := remoteEmpty, fs := emptyFS })).results.actions
        = ["created container con"])
    ∧ ((exec_module pUp (initS pUp envUp)).results.actions
        = ["created container con", "created blob b from /s/a.png"]) := by
  have hA := (create_container_scoped_tags baseParams
      { remote := remoteEmpty, fs := emptyFS } (by decide) rfl rfl rfl).1 rfl
  have hB := (create_container_scoped_tags pUp envUp
      (by decide) rfl rfl rfl).2 "b" "/s/a.png" rfl (by decide) rfl (by decide) rfl rfl rfl
  exact ⟨hA.2.2.1, hB.2.2.1⟩

/-- C7 (amended): in check mode no remote-store or filesystem mutation
occurs — every state-mutating call is skipped while the decision procedure
still runs — and the source-file validity check still executes identically
against the real filesystem; the destination-path checks, however, are
skipped entirely: `dest_is_valid` returns true at once without consulting
the filesystem. -/
theorem check_mode_no_mutation :
    (∀ (p : Params) (env : Env), p.check_mode = true →
        (exec_module p (initS p env)).remote = env.remote
          ∧ (exec_module p (initS p env)).fs = env.fs)
    ∧ (∀ (p : Params) (s : S), src_is_valid p s
          = src_is_valid { p with check_mode := true } s)
    ∧ (∀ (p : Params) (s : S), p.check_mode = true → dest_is_valid p s = (true, s)) := by
  refine ⟨fun p env hc => ⟨?_, ?_⟩, fun p s => rfl, fun p s hc => check_dest_is_valid p s hc⟩
  · exact check_remote_exec_module p (initS p env) hc
  · exact check_fs_exec_module p (initS p env) hc

/-- C7 witness: the amended claim applied to the concrete check-mode
download invocation `pDl` in `envDl`. -/
theorem check_mode_no_mutation_witness :
    pDl.check_mode = true
      ∧ (exec_module pDl (initS pDl envDl)).remote = envDl.remote
      ∧ (exec_module pDl (initS pDl envDl)).fs = envDl.fs
      ∧ dest_is_valid pDl (initS pDl envDl) = (true, initS pDl envDl) :=
  ⟨rfl, (check_mode_no_mutation.1 pDl envDl rfl).1,
    (check_mode_no_mutation.1 pDl envDl rfl).2,
    check_mode_no_mutation.2.2 pDl (initS pDl envDl) rfl⟩

/-- C7 counterexample: the claim that "path and existence checks
(destination-file existence, destination-directory existence) still execute
against the real filesystem" in check mode is false.  In `envDl` the
destination file exists and force is unset, so the real-mode run refuses the
download (no action); the check-mode run of the same invocation records the
download action anyway, because `dest_is_valid` skips every filesystem
check in check mode. -/
theorem check_mode_skips_dest_checks :
    envDl.fs.files.contains "/d/f.txt" = true
      ∧ pDl.force = false
      ∧ (runModule pDl envDl).results.actions
          = ["downloaded blob con:b to /d/f.txt"]
      ∧ (runModule { pDl with check_mode := false } envDl).results.actions = [] := by
  refine ⟨rfl, rfl, ?_, ?_⟩ <;> rfl

end StorageBlob
